import Mathlib

/-!
# vulkan-triangle: device selection, swapchain parameters, initialisation and frame loop

A shallow embedding of the decision logic of `src/main.c`.  Every Vulkan or GLFW
query the C code makes is replaced by the data the driver reports: a physical
device is the record of what its queries return, and a `VkXxxCreateInfo` value is
the record the C code builds and hands to the corresponding `vkCreateXxx` call.

Machine integers are natural numbers; `uint32_t` arithmetic that can wrap is
written with an explicit `% 4294967296`.  A C array together with its element
count is a `List` (the count is its length).  The order in which the program
calls the windowing and graphics interfaces is a `List Op`.
-/

namespace VulkanTriangle

/-! ## Constants of the C and Vulkan headers -/

/-- The largest `unsigned int` (`limits.h`), `0xFFFFFFFF`. -/
def UINT_MAX : Nat := 4294967295

/-- A `VkResult` is a signed enumeration; `VK_SUCCESS` is zero. -/
abbrev VkResult := Int

def VK_SUCCESS : VkResult := 0

/-- The C operator `!` on an integer: `1` for zero, `0` for anything else. -/
def c_not (x : Int) : Int := if x = 0 then 1 else 0

def VK_TRUE : Nat := 1

def VK_QUEUE_GRAPHICS_BIT : Nat := 1

def VK_QUEUE_COMPUTE_BIT : Nat := 2

def VK_QUEUE_TRANSFER_BIT : Nat := 4

def VK_PHYSICAL_DEVICE_TYPE_INTEGRATED_GPU : Nat := 1

def VK_PHYSICAL_DEVICE_TYPE_DISCRETE_GPU : Nat := 2

def VK_FORMAT_R8G8B8A8_SRGB : Nat := 43

def VK_FORMAT_B8G8R8A8_SRGB : Nat := 50

def VK_COLOR_SPACE_SRGB_NONLINEAR_KHR : Nat := 0

def VK_PRESENT_MODE_IMMEDIATE_KHR : Nat := 0

def VK_PRESENT_MODE_MAILBOX_KHR : Nat := 1

def VK_PRESENT_MODE_FIFO_KHR : Nat := 2

def VK_SHARING_MODE_EXCLUSIVE : Nat := 0

def VK_SHARING_MODE_CONCURRENT : Nat := 1

def VK_IMAGE_USAGE_COLOR_ATTACHMENT_BIT : Nat := 16

def VK_COMPOSITE_ALPHA_OPAQUE_BIT_KHR : Nat := 1

def VK_KHR_SWAPCHAIN_EXTENSION_NAME : String := "VK_KHR_swapchain"

/-- The static array `device_extensions` (main.c:47). -/
def device_extensions : List String := [VK_KHR_SWAPCHAIN_EXTENSION_NAME]

/-! ## Data model -/

/-- The struct `optional_uint32_t` (main.c:88). -/
structure optional_uint32_t where
  value : Nat
  assigned : Bool
deriving DecidableEq, Repr

/-- The struct `queue_family_indices` (main.c:93). -/
structure queue_family_indices where
  graphics_family : optional_uint32_t
  present_family : optional_uint32_t
deriving DecidableEq, Repr

/-- One queue family of a device as the driver reports it: `queueFlags` is the
field of `VkQueueFamilyProperties`, `present_support` is the `VkBool32` that
`vkGetPhysicalDeviceSurfaceSupportKHR` writes for this family and the program's
surface. -/
structure QueueFamily where
  queueFlags : Nat
  present_support : Nat
deriving DecidableEq, Repr

structure VkExtent2D where
  width : Nat
  height : Nat
deriving DecidableEq, Repr

structure VkSurfaceFormatKHR where
  format : Nat
  colorSpace : Nat
deriving DecidableEq, Repr

/-- The fields of `VkSurfaceCapabilitiesKHR` that main.c reads. -/
structure VkSurfaceCapabilitiesKHR where
  minImageCount : Nat
  maxImageCount : Nat
  currentExtent : VkExtent2D
  minImageExtent : VkExtent2D
  maxImageExtent : VkExtent2D
  currentTransform : Nat
deriving DecidableEq, Repr

/-- A physical device, as the answers the driver gives to the queries main.c makes
on its handle (for the program's one surface): device properties and features,
queue families, device extensions, surface capabilities, formats and present
modes. -/
structure VkPhysicalDevice where
  deviceType : Nat
  geometryShader : Nat
  families : List QueueFamily
  extensions : List String
  capabilities : VkSurfaceCapabilitiesKHR
  formats : List VkSurfaceFormatKHR
  present_modes : List Nat
deriving DecidableEq, Repr

/-- The global `physical_device` is a handle that may be `VK_NULL_HANDLE`. -/
abbrev PhysicalDeviceHandle := Option VkPhysicalDevice

/-- The null handle; also the value of the zero-initialised static
`physical_device` when the program starts. -/
def VK_NULL_HANDLE : PhysicalDeviceHandle := none

/-- The struct `swap_chain_support_details` (main.c:98). -/
structure swap_chain_support_details where
  capabilities : VkSurfaceCapabilitiesKHR
  formats : List VkSurfaceFormatKHR
  formats_count : Nat
  present_modes : List Nat
  present_modes_count : Nat
deriving DecidableEq, Repr

/-- One element of `queue_create_infos`; `pQueuePriorities` is the array of
`queueCount` priorities the pointer designates (here the one local `priority`). -/
structure VkDeviceQueueCreateInfo where
  queueFamilyIndex : Nat
  queueCount : Nat
  pQueuePriorities : List Rat
deriving DecidableEq, Repr

/-- The `VkDeviceCreateInfo` handed to `vkCreateDevice`: `pQueueCreateInfos` is the
whole two-element array, of which the callee reads the first
`queueCreateInfoCount` entries.  (`pEnabledFeatures`, an all-zero feature set, is
left out.) -/
structure VkDeviceCreateInfo where
  pQueueCreateInfos : List VkDeviceQueueCreateInfo
  queueCreateInfoCount : Nat
  enabledLayerCount : Nat
  enabledExtensionCount : Nat
  ppEnabledExtensionNames : List String
deriving DecidableEq, Repr

/-- The `VkSwapchainCreateInfoKHR` handed to `vkCreateSwapchainKHR`; fields the
designated initialiser does not name are zero, and a null `pQueueFamilyIndices`
is `none`. -/
structure VkSwapchainCreateInfoKHR where
  minImageCount : Nat
  imageFormat : Nat
  imageColorSpace : Nat
  imageExtent : VkExtent2D
  imageArrayLayers : Nat
  imageUsage : Nat
  preTransform : Nat
  compositeAlpha : Nat
  presentMode : Nat
  clipped : Nat
  imageSharingMode : Nat
  queueFamilyIndexCount : Nat
  pQueueFamilyIndices : Option (List Nat)
deriving DecidableEq, Repr

/-! ## Helpers (main.c:60) -/

/-- The function `clamp` (main.c:60). -/
def clamp (number min max : Nat) : Nat :=
  if number < min then min
  else if number > max then max
  else number

/-- Conversion of a C `int` to `uint32_t` (reduction modulo 2^32). -/
def to_uint32 (x : Int) : Nat := (x % 4294967296).toNat

/-! ## Queue families (main.c:108) -/

/-- The test `family.queueFlags & VK_QUEUE_GRAPHICS_BIT`. -/
def supports_graphics (family : QueueFamily) : Bool :=
  (family.queueFlags &&& VK_QUEUE_GRAPHICS_BIT) != 0

/-- The test `if (present_support)` on the `VkBool32` reported for the family. -/
def supports_present (family : QueueFamily) : Bool :=
  family.present_support != 0

/-- The two assignments in the body of the `for` loop of `find_queue_families`
(main.c:116-127) for the family at index `i`: a capable family overwrites the
field, whether or not it was assigned before. -/
def find_queue_families_step (family : QueueFamily) (i : Nat)
    (indices : queue_family_indices) : queue_family_indices :=
  let indices :=
    if supports_graphics family then
      { indices with graphics_family := { value := i, assigned := true } }
    else indices
  let indices :=
    if supports_present family then
      { indices with present_family := { value := i, assigned := true } }
    else indices
  indices

/-- The `for` loop of `find_queue_families`, from index `i` on, over the families
not yet visited; it leaves (`break`, main.c:129) once both fields are assigned. -/
def find_queue_families_loop :
    List QueueFamily → Nat → queue_family_indices → queue_family_indices
  | [], _, indices => indices
  | family :: rest, i, indices =>
    let indices := find_queue_families_step family i indices
    if indices.graphics_family.assigned && indices.present_family.assigned then
      indices
    else
      find_queue_families_loop rest (i + 1) indices

/-- The function `find_queue_families` (main.c:108).  The local `indices` is not
initialised in the C code; `stack` is whatever it holds on entry. -/
def find_queue_families (stack : queue_family_indices) (device : VkPhysicalDevice) :
    queue_family_indices :=
  find_queue_families_loop device.families 0 stack

/-- A `queue_family_indices` with both fields unassigned. -/
def unassigned_indices : queue_family_indices :=
  { graphics_family := { value := 0, assigned := false },
    present_family := { value := 0, assigned := false } }

/-! ## Logical device (main.c:139) -/

/-- The `VkDeviceCreateInfo` that `create_logical_device` builds from the indices
it obtained (main.c:141-178). -/
def device_create_info_of (indices : queue_family_indices) : VkDeviceCreateInfo :=
  let priority : Rat := 1
  let unique_count : Nat :=
    if indices.graphics_family.value ≠ indices.present_family.value then 2 else 1
  let graphics_queue_create_info : VkDeviceQueueCreateInfo :=
    { queueFamilyIndex := indices.graphics_family.value,
      queueCount := 1,
      pQueuePriorities := [priority] }
  let present_queue_create_info : VkDeviceQueueCreateInfo :=
    { queueFamilyIndex := indices.present_family.value,
      queueCount := 1,
      pQueuePriorities := [priority] }
  let queue_create_infos := [graphics_queue_create_info, present_queue_create_info]
  let extension_count := device_extensions.length
  { pQueueCreateInfos := queue_create_infos,
    queueCreateInfoCount := unique_count,
    enabledLayerCount := 0,
    enabledExtensionCount := extension_count,
    ppEnabledExtensionNames := device_extensions }

/-- The function `create_logical_device` (main.c:139) up to its call of
`vkCreateDevice`: the create-info passed for the selected device. -/
def create_logical_device (stack : queue_family_indices)
    (physical_device : VkPhysicalDevice) : VkDeviceCreateInfo :=
  let indices := find_queue_families stack physical_device
  device_create_info_of indices

/-- The queue-creation requests that `vkCreateDevice` reads: the first
`queueCreateInfoCount` entries of `pQueueCreateInfos`. -/
def queue_requests (info : VkDeviceCreateInfo) : List VkDeviceQueueCreateInfo :=
  info.pQueueCreateInfos.take info.queueCreateInfoCount

/-! ## Swapchain parameters (main.c:191) -/

/-- The function `choose_swap_chain_extent` (main.c:191); `framebuffer` is the pair
of `int`s that `glfwGetFramebufferSize` writes. -/
def choose_swap_chain_extent (capabilities : VkSurfaceCapabilitiesKHR)
    (framebuffer : Int × Int) : VkExtent2D :=
  if capabilities.currentExtent.width ≠ UINT_MAX then
    capabilities.currentExtent
  else
    let extent : VkExtent2D :=
      { width := to_uint32 framebuffer.1, height := to_uint32 framebuffer.2 }
    let extent := { extent with
      width := clamp extent.width capabilities.minImageExtent.width
        capabilities.maxImageExtent.width }
    let extent := { extent with
      height := clamp extent.height capabilities.minImageExtent.height
        capabilities.maxImageExtent.height }
    extent

/-- The function `choose_swap_chain_present_mode` (main.c:209). -/
def choose_swap_chain_present_mode : List Nat → Nat
  | [] => VK_PRESENT_MODE_FIFO_KHR
  | mode :: rest =>
    if mode ≠ VK_PRESENT_MODE_MAILBOX_KHR then choose_swap_chain_present_mode rest
    else mode

/-- The `for` loop of `choose_swap_chain_surface_format`: the entry it returns from
inside the loop, if any. -/
def choose_swap_chain_surface_format_loop : List VkSurfaceFormatKHR → Option VkSurfaceFormatKHR
  | [] => none
  | format :: rest =>
    if format.format ≠ VK_FORMAT_R8G8B8A8_SRGB then
      choose_swap_chain_surface_format_loop rest
    else if format.colorSpace ≠ VK_COLOR_SPACE_SRGB_NONLINEAR_KHR then
      choose_swap_chain_surface_format_loop rest
    else some format

/-- The function `choose_swap_chain_surface_format` (main.c:222).  The final
`return formats[0]` reads outside the array when `count` is zero; that read is
`none`. -/
def choose_swap_chain_surface_format (formats : List VkSurfaceFormatKHR) :
    Option VkSurfaceFormatKHR :=
  match choose_swap_chain_surface_format_loop formats with
  | some format => some format
  | none => formats[0]?

/-- The function `query_swap_chain_details` (main.c:239). -/
def query_swap_chain_details (device : VkPhysicalDevice) : swap_chain_support_details :=
  { capabilities := device.capabilities,
    formats := device.formats,
    formats_count := device.formats.length,
    present_modes := device.present_modes,
    present_modes_count := device.present_modes.length }

/-- The computation of `image_count` in `create_swap_chain` (main.c:266-269), in
`uint32_t` arithmetic. -/
def swap_chain_image_count (capabilities : VkSurfaceCapabilitiesKHR) : Nat :=
  let image_count := (capabilities.minImageCount + 1) % 4294967296
  if capabilities.maxImageCount > 0 ∧ image_count > capabilities.maxImageCount then
    capabilities.maxImageCount
  else image_count

/-- The function `create_swap_chain` (main.c:259) up to its call of
`vkCreateSwapchainKHR`: the create-info passed, or `none` when the format choice
read outside an empty format array. -/
def create_swap_chain (stack : queue_family_indices) (physical_device : VkPhysicalDevice)
    (framebuffer : Int × Int) : Option VkSwapchainCreateInfoKHR :=
  let details := query_swap_chain_details physical_device
  match choose_swap_chain_surface_format details.formats with
  | none => none
  | some surface_format =>
    let present_mode := choose_swap_chain_present_mode details.present_modes
    let extent := choose_swap_chain_extent details.capabilities framebuffer
    let image_count := swap_chain_image_count details.capabilities
    let create_info : VkSwapchainCreateInfoKHR :=
      { minImageCount := image_count,
        imageFormat := surface_format.format,
        imageColorSpace := surface_format.colorSpace,
        imageExtent := extent,
        imageArrayLayers := 1,
        imageUsage := VK_IMAGE_USAGE_COLOR_ATTACHMENT_BIT,
        preTransform := details.capabilities.currentTransform,
        compositeAlpha := VK_COMPOSITE_ALPHA_OPAQUE_BIT_KHR,
        presentMode := present_mode,
        clipped := VK_TRUE,
        imageSharingMode := 0,
        queueFamilyIndexCount := 0,
        pQueueFamilyIndices := none }
    let indices := find_queue_families stack physical_device
    let family_indices := [indices.graphics_family.value, indices.present_family.value]
    if indices.graphics_family.value ≠ indices.present_family.value then
      some { create_info with
        imageSharingMode := VK_SHARING_MODE_CONCURRENT,
        queueFamilyIndexCount := 2,
        pQueueFamilyIndices := some family_indices }
    else
      some { create_info with imageSharingMode := VK_SHARING_MODE_EXCLUSIVE }

/-! ## Device selection (main.c:632) -/

/-- The inner loop of `check_extension_support`: whether `name` compares equal
(`strcmp`) to one of the available extension names. -/
def extension_listed (name : String) : List String → Bool
  | [] => false
  | extensionName :: rest =>
    if name = extensionName then true else extension_listed name rest

/-- The outer loop of `check_extension_support`: the value of the `uint32_t`
counter `matches` after the required names still to visit, starting from `found`;
`matches++` is an increment modulo 2^32. -/
def count_extension_matches (available : List String) : List String → Nat → Nat
  | [], found => found
  | name :: rest, found =>
    count_extension_matches available rest
      (if extension_listed name available then (found + 1) % 4294967296 else found)

/-- The body of `check_extension_support` (main.c:633-653) for an array `required`
of required names (in the program, `device_extensions`) and the extension names
`available` that the driver lists. -/
def check_extension_support_for (required available : List String) : Bool :=
  let count := required.length
  let found := count_extension_matches available required 0
  found == count

/-- The function `check_extension_support` (main.c:632). -/
def check_extension_support (device : VkPhysicalDevice) : Bool :=
  check_extension_support_for device_extensions device.extensions

/-- The function `device_suitable` (main.c:656). -/
def device_suitable (stack : queue_family_indices) (device : VkPhysicalDevice) : Bool :=
  let indices := find_queue_families stack device
  if !indices.graphics_family.assigned then false
  else
    let supports_extensions := check_extension_support device
    let supports_swap_chain :=
      if supports_extensions then
        let details := query_swap_chain_details device
        details.formats_count != 0 && details.present_modes_count != 0
      else false
    device.deviceType == VK_PHYSICAL_DEVICE_TYPE_DISCRETE_GPU
      && device.geometryShader != 0
      && supports_swap_chain

/-- The `for` loop of `init_device`: the value of `physical_device` after it, having
started from `VK_NULL_HANDLE`. -/
def init_device_loop (stack : queue_family_indices) :
    List VkPhysicalDevice → PhysicalDeviceHandle
  | [] => VK_NULL_HANDLE
  | device :: rest =>
    if !device_suitable stack device then init_device_loop stack rest
    else some device

/-- The function `init_device` (main.c:685): `devices` is what
`vkEnumeratePhysicalDevices` lists, `physical_device` the global before the call;
the result is the status and the global after it. -/
def init_device (stack : queue_family_indices) (devices : List VkPhysicalDevice)
    (physical_device : PhysicalDeviceHandle) : VkResult × PhysicalDeviceHandle :=
  let device_count := devices.length
  if device_count = 0 then (c_not VK_SUCCESS, physical_device)
  else
    let physical_device := init_device_loop stack devices
    if physical_device = VK_NULL_HANDLE then (c_not VK_SUCCESS, physical_device)
    else (VK_SUCCESS, physical_device)

/-- The steps `init_device` and `create_logical_device` of `init_vulkan`
(main.c:758-768), from program start: the indices and the create-info with which
`vkCreateDevice` is called, or `none` when `init_device` fails and the sequence
stops before it. -/
def device_bring_up (stack : queue_family_indices) (devices : List VkPhysicalDevice) :
    Option (queue_family_indices × VkDeviceCreateInfo) :=
  match init_device stack devices VK_NULL_HANDLE with
  | (result, some physical_device) =>
    if result ≠ VK_SUCCESS then none
    else some (find_queue_families stack physical_device,
      create_logical_device stack physical_device)
  | (_, none) => none

/-! ## Shader files (main.c:72, main.c:386) -/

/-- What `read_file` leaves in `*size`, with the number of times the body of its
padding loop ran. -/
structure read_file_result where
  size : Nat
  increments : Nat
deriving DecidableEq, Repr

/-- The padding loop of `read_file` (main.c:78-80) on the `uint32_t` `*size`;
`increments` counts the executions of `(*size)++` so far. -/
def read_file_pad (size increments : Nat) : read_file_result :=
  if size % 32 ≠ 0 then read_file_pad ((size + 1) % 4294967296) (increments + 1)
  else { size := size, increments := increments }
termination_by (32 - size % 32) % 32
decreasing_by omega

/-- The function `read_file` (main.c:72), as far as `*size` goes: `position` is the
`long` that `ftell` returns at the end of the file, stored into the `uint32_t`. -/
def read_file (position : Int) : read_file_result :=
  let size := to_uint32 position
  read_file_pad size 0

/-- The fields of `VkShaderModuleCreateInfo` that depend on the arguments. -/
structure VkShaderModuleCreateInfo where
  codeSize : Nat
deriving DecidableEq, Repr

/-- The function `create_shader_module` (main.c:386): the create-info passed to
`vkCreateShaderModule` for a buffer of `size` bytes. -/
def create_shader_module (size : Nat) : VkShaderModuleCreateInfo :=
  { codeSize := size }

/-- The start of `create_graphics_pipeline` (main.c:399-406) for one shader file:
the file is read and the size `read_file` reports is handed on. -/
def shader_module_info (position : Int) : VkShaderModuleCreateInfo :=
  let shader_size := (read_file position).size
  create_shader_module shader_size

/-! ## Initialisation, frame loop and teardown (main.c:567, main.c:744) -/

def VK_FENCE_CREATE_SIGNALED_BIT : Nat := 1

/-- The twelve functions that `init_vulkan` calls. -/
inductive Step where
  | create_instance
  | create_surface
  | init_device
  | create_logical_device
  | create_swap_chain
  | create_image_view
  | create_render_pass
  | create_graphics_pipeline
  | create_frame_buffer
  | create_command_pool
  | create_command_buffer
  | create_sync_objects
deriving DecidableEq, Repr

/-- The objects behind the global handles of main.c, and the two shader modules
local to `create_graphics_pipeline`. -/
inductive GpuObject where
  | vk_instance
  | surface
  | logical_device
  | swap_chain
  | swap_chain_image_view (i : Nat)
  | render_pass
  | vertex_shader
  | fragment_shader
  | pipeline_layout
  | pipeline
  | swap_chain_frame_buffer (i : Nat)
  | command_pool
  | command_buffer
  | image_available_semaphore
  | render_finished_semaphore
  | in_flight_fence
deriving DecidableEq, Repr

/-- The two global queue handles. -/
inductive Queue where
  | graphics_queue
  | present_queue
deriving DecidableEq, Repr

/-- The calls the program makes, with the arguments that vary or that identify the
objects involved.  `call` is a call of one of the twelve functions from
`init_vulkan`; `create` is a successful `vkCreateXxx` or `glfwCreateWindowSurface`
or `vkAllocateCommandBuffers` for the object; `destroy` is the `vkDestroyXxx` call
for it.  The viewport fields hold the extent values assigned to the `float`
members. -/
inductive Op where
  | init_window
  | call (step : Step)
  | puts (line : String)
  | create (object : GpuObject)
  | vkCreateSemaphore (semaphore : GpuObject) (result : VkResult)
  | vkCreateFence (fence : GpuObject) (flags : Nat) (result : VkResult)
  | destroy (object : GpuObject)
  | glfwPollEvents
  | vkWaitForFences (fence : GpuObject)
  | vkResetFences (fence : GpuObject)
  | vkAcquireNextImageKHR (semaphore : GpuObject) (fence : Option GpuObject) (image_index : Nat)
  | vkResetCommandBuffer (buffer : GpuObject)
  | vkBeginCommandBuffer (buffer : GpuObject)
  | vkCmdBeginRenderPass (renderPass framebuffer : GpuObject) (renderArea : VkExtent2D)
  | vkCmdBindPipeline (bound : GpuObject)
  | vkCmdSetViewport (width height : Nat)
  | vkCmdSetScissor (extent : VkExtent2D)
  | vkCmdDraw (vertexCount instanceCount firstVertex firstInstance : Nat)
  | vkCmdEndRenderPass
  | vkEndCommandBuffer (buffer : GpuObject)
  | vkQueueSubmit (queue : Queue) (pWaitSemaphores : List GpuObject)
      (pCommandBuffers : List GpuObject) (pSignalSemaphores : List GpuObject)
      (fence : Option GpuObject)
  | vkQueuePresentKHR (queue : Queue) (pWaitSemaphores : List GpuObject) (image_index : Nat)
  | free_swap_chain_images
  | free_swap_chain_image_views
  | glfwDestroyWindow
  | glfwTerminate
deriving DecidableEq, Repr

/-- The function `init_vulkan` (main.c:744): `status` gives the `VkResult` each of
the twelve functions returns when called; the result is the returned status and
the calls made, in order. -/
def init_vulkan (status : Step → VkResult) : VkResult × List Op :=
  let result := status Step.create_instance
  let trace := [Op.call Step.create_instance]
  if result ≠ VK_SUCCESS then (result, trace ++ [Op.puts "Failed to create instance"]) else
  let result := status Step.create_surface
  let trace := trace ++ [Op.call Step.create_surface]
  if result ≠ VK_SUCCESS then (result, trace ++ [Op.puts "Failed to create surface"]) else
  let result := status Step.init_device
  let trace := trace ++ [Op.call Step.init_device]
  if result ≠ VK_SUCCESS then (result, trace ++ [Op.puts "Failed to create device"]) else
  let result := status Step.create_logical_device
  let trace := trace ++ [Op.call Step.create_logical_device]
  if result ≠ VK_SUCCESS then
    (result, trace ++ [Op.puts "Failed to create logical device"]) else
  let result := status Step.create_swap_chain
  let trace := trace ++ [Op.call Step.create_swap_chain]
  if result ≠ VK_SUCCESS then (result, trace ++ [Op.puts "Failed to create swap chain"]) else
  let result := status Step.create_image_view
  let trace := trace ++ [Op.call Step.create_image_view]
  if result ≠ VK_SUCCESS then (result, trace ++ [Op.puts "Failed to create image view"]) else
  let result := status Step.create_render_pass
  let trace := trace ++ [Op.call Step.create_render_pass]
  if result ≠ VK_SUCCESS then (result, trace ++ [Op.puts "Failed to create render pass"]) else
  let result := status Step.create_graphics_pipeline
  let trace := trace ++ [Op.call Step.create_graphics_pipeline]
  if result ≠ VK_SUCCESS then
    (result, trace ++ [Op.puts "Failed to create graphics pipeline"]) else
  let result := status Step.create_frame_buffer
  let trace := trace ++ [Op.call Step.create_frame_buffer]
  if result ≠ VK_SUCCESS then (result, trace ++ [Op.puts "Failed to create frame buffers"]) else
  let result := status Step.create_command_pool
  let trace := trace ++ [Op.call Step.create_command_pool]
  if result ≠ VK_SUCCESS then (result, trace ++ [Op.puts "Failed to create command pool"]) else
  let result := status Step.create_command_buffer
  let trace := trace ++ [Op.call Step.create_command_buffer]
  if result ≠ VK_SUCCESS then
    (result, trace ++ [Op.puts "Failed to create command buffer"]) else
  let result := status Step.create_sync_objects
  let trace := trace ++ [Op.call Step.create_sync_objects]
  if result ≠ VK_SUCCESS then (result, trace ++ [Op.puts "Failed to create sync objects"]) else
  (VK_SUCCESS, trace)

/-- The function `record_command_buffer` (main.c:567) for the global command
buffer. -/
def record_command_buffer (image_index : Nat) (swap_chain_extent : VkExtent2D) : List Op :=
  [ Op.vkBeginCommandBuffer GpuObject.command_buffer,
    Op.vkCmdBeginRenderPass GpuObject.render_pass
      (GpuObject.swap_chain_frame_buffer image_index) swap_chain_extent,
    Op.vkCmdBindPipeline GpuObject.pipeline,
    Op.vkCmdSetViewport swap_chain_extent.width swap_chain_extent.height,
    Op.vkCmdSetScissor swap_chain_extent,
    Op.vkCmdDraw 3 1 0 0,
    Op.vkCmdEndRenderPass,
    Op.vkEndCommandBuffer GpuObject.command_buffer ]

/-- The function `draw_frame` (main.c:821); `image_index` is the index that
`vkAcquireNextImageKHR` writes. -/
def draw_frame (image_index : Nat) (swap_chain_extent : VkExtent2D) : List Op :=
  [ Op.vkWaitForFences GpuObject.in_flight_fence,
    Op.vkResetFences GpuObject.in_flight_fence,
    Op.vkAcquireNextImageKHR GpuObject.image_available_semaphore none image_index,
    Op.vkResetCommandBuffer GpuObject.command_buffer ]
  ++ record_command_buffer image_index swap_chain_extent
  ++ [ Op.vkQueueSubmit Queue.graphics_queue [GpuObject.image_available_semaphore]
         [GpuObject.command_buffer] [GpuObject.render_finished_semaphore]
         (some GpuObject.in_flight_fence),
       Op.vkQueuePresentKHR Queue.present_queue [GpuObject.render_finished_semaphore]
         image_index ]

/-- The function `main_loop` (main.c:855) from its iteration number `iteration` on:
`should_close k` is the answer of `glfwWindowShouldClose` at iteration `k` and
`acquired k` the image index acquired in it.  `fuel` bounds the number of tests
of the loop condition; `none` means the bound was reached with the window open. -/
def main_loop (should_close : Nat → Bool) (acquired : Nat → Nat)
    (swap_chain_extent : VkExtent2D) : Nat → Nat → Option (List Op)
  | 0, _ => none
  | fuel + 1, iteration =>
    if should_close iteration then some []
    else
      match main_loop should_close acquired swap_chain_extent fuel (iteration + 1) with
      | none => none
      | some rest =>
        some (Op.glfwPollEvents :: draw_frame (acquired iteration) swap_chain_extent ++ rest)

/-- The function `create_sync_objects` (main.c:608): the arguments are the results
of its three Vulkan calls, should they be made. -/
def create_sync_objects (image_available render_finished in_flight : VkResult) :
    VkResult × List Op :=
  let fence_info_flags := VK_FENCE_CREATE_SIGNALED_BIT
  let result := image_available
  let trace := [Op.vkCreateSemaphore GpuObject.image_available_semaphore result]
  if result ≠ VK_SUCCESS then (result, trace) else
  let result := render_finished
  let trace := trace ++ [Op.vkCreateSemaphore GpuObject.render_finished_semaphore result]
  if result ≠ VK_SUCCESS then (result, trace) else
  (in_flight, trace ++ [Op.vkCreateFence GpuObject.in_flight_fence fence_info_flags in_flight])

/-- The Vulkan calls that create or destroy objects in each of the twelve functions
when every call in it succeeds, in source order; `swap_chain_images_count` is the
number of swapchain images. -/
def step_ops (swap_chain_images_count : Nat) : Step → List Op
  | Step.create_instance => [Op.create GpuObject.vk_instance]
  | Step.create_surface => [Op.create GpuObject.surface]
  | Step.init_device => []
  | Step.create_logical_device => [Op.create GpuObject.logical_device]
  | Step.create_swap_chain => [Op.create GpuObject.swap_chain]
  | Step.create_image_view =>
    (List.range swap_chain_images_count).map
      (fun i => Op.create (GpuObject.swap_chain_image_view i))
  | Step.create_render_pass => [Op.create GpuObject.render_pass]
  | Step.create_graphics_pipeline =>
    [ Op.create GpuObject.vertex_shader,
      Op.create GpuObject.fragment_shader,
      Op.create GpuObject.pipeline_layout,
      Op.create GpuObject.pipeline,
      Op.destroy GpuObject.vertex_shader,
      Op.destroy GpuObject.fragment_shader ]
  | Step.create_frame_buffer =>
    (List.range swap_chain_images_count).map
      (fun i => Op.create (GpuObject.swap_chain_frame_buffer i))
  | Step.create_command_pool => [Op.create GpuObject.command_pool]
  | Step.create_command_buffer => [Op.create GpuObject.command_buffer]
  | Step.create_sync_objects => (create_sync_objects VK_SUCCESS VK_SUCCESS VK_SUCCESS).2

/-- The function `cleanup` (main.c:862). -/
def cleanup (swap_chain_images_count : Nat) : List Op :=
  [ Op.destroy GpuObject.image_available_semaphore,
    Op.destroy GpuObject.render_finished_semaphore,
    Op.destroy GpuObject.command_pool ]
  ++ (List.range swap_chain_images_count).map
      (fun i => Op.destroy (GpuObject.swap_chain_frame_buffer i))
  ++ [ Op.destroy GpuObject.pipeline,
       Op.destroy GpuObject.pipeline_layout,
       Op.destroy GpuObject.render_pass ]
  ++ (List.range swap_chain_images_count).map
      (fun i => Op.destroy (GpuObject.swap_chain_image_view i))
  ++ [ Op.destroy GpuObject.swap_chain,
       Op.destroy GpuObject.logical_device,
       Op.destroy GpuObject.surface,
       Op.destroy GpuObject.vk_instance,
       Op.free_swap_chain_images,
       Op.free_swap_chain_image_views,
       Op.glfwDestroyWindow,
       Op.glfwTerminate ]

/-- The function `main` (main.c:893): the exit code and the calls made, or `none`
when `fuel` tests of the loop condition did not see the window closed. -/
def main (status : Step → VkResult) (swap_chain_images_count : Nat)
    (swap_chain_extent : VkExtent2D) (should_close : Nat → Bool) (acquired : Nat → Nat)
    (fuel : Nat) : Option (Int × List Op) :=
  let started := init_vulkan status
  if started.1 ≠ VK_SUCCESS then some (1, Op.init_window :: started.2)
  else
    match main_loop should_close acquired swap_chain_extent fuel 0 with
    | none => none
    | some frames =>
      some (0, Op.init_window :: started.2 ++ frames ++ cleanup swap_chain_images_count)

/-! ## Concrete devices -/

def example_capabilities : VkSurfaceCapabilitiesKHR :=
  { minImageCount := 2, maxImageCount := 0,
    currentExtent := { width := 512, height := 512 },
    minImageExtent := { width := 1, height := 1 },
    maxImageExtent := { width := 512, height := 512 },
    currentTransform := 1 }

/-- A discrete GPU with one family that does graphics and presentation. -/
def discrete_device : VkPhysicalDevice :=
  { deviceType := VK_PHYSICAL_DEVICE_TYPE_DISCRETE_GPU,
    geometryShader := 1,
    families := [{ queueFlags := 1, present_support := 1 }],
    extensions := ["VK_KHR_swapchain"],
    capabilities := example_capabilities,
    formats := [{ format := 50, colorSpace := 0 }],
    present_modes := [2] }

/-- The same device reporting the integrated adapter type. -/
def integrated_device : VkPhysicalDevice :=
  { discrete_device with deviceType := VK_PHYSICAL_DEVICE_TYPE_INTEGRATED_GPU }

/-- A discrete GPU whose only queue family does graphics but cannot present to the
surface (the surface belongs to another adapter). -/
def no_present_device : VkPhysicalDevice :=
  { discrete_device with families := [{ queueFlags := 1, present_support := 0 }] }

/-- A device like `discrete_device` whose graphics family (index 0) and
presentation family (index 1) differ. -/
def split_family_device : VkPhysicalDevice :=
  { discrete_device with
    families := [{ queueFlags := 1, present_support := 0 },
                 { queueFlags := 4, present_support := 1 }] }

/-- A device like `discrete_device` whose surface allows at most two images. -/
def two_image_device : VkPhysicalDevice :=
  { discrete_device with
    capabilities := { example_capabilities with minImageCount := 2, maxImageCount := 2 } }

/-- A device like `discrete_device` whose surface reports the largest 32-bit
`minImageCount` and no upper bound. -/
def wrapping_device : VkPhysicalDevice :=
  { discrete_device with
    capabilities := { example_capabilities with
      minImageCount := 4294967295, maxImageCount := 0 } }

/-- Capabilities whose current extent is the undefined sentinel. -/
def sentinel_capabilities : VkSurfaceCapabilitiesKHR :=
  { example_capabilities with currentExtent := { width := UINT_MAX, height := UINT_MAX } }

/-- A device whose families 0 and 1 both do graphics and whose family 1 alone can
present. -/
def two_graphics_device : VkPhysicalDevice :=
  { discrete_device with
    families := [{ queueFlags := 1, present_support := 0 },
                 { queueFlags := 1, present_support := 1 }] }

/-- A device whose families 0 and 1 can both present and whose family 1 alone does
graphics. -/
def two_present_device : VkPhysicalDevice :=
  { discrete_device with
    families := [{ queueFlags := 4, present_support := 1 },
                 { queueFlags := 1, present_support := 1 }] }

/-- A device whose families 0 and 1 do transfer only and whose family 2 does
transfer, graphics and presentation. -/
def third_family_device : VkPhysicalDevice :=
  { discrete_device with
    families := [{ queueFlags := 4, present_support := 0 },
                 { queueFlags := 4, present_support := 0 },
                 { queueFlags := 5, present_support := 1 }] }

/-! ## Vocabulary of the statements -/

/-- Index `v` is the lowest index of `families` whose family satisfies `p`. -/
def lowest_index (p : QueueFamily → Bool) (families : List QueueFamily) (v : Nat) : Prop :=
  (∃ f, families[v]? = some f ∧ p f = true)
    ∧ ∀ j f, j < v → families[j]? = some f → p f = false

/-- Index `v` is the highest index of `families` whose family satisfies `p`. -/
def highest_index (p : QueueFamily → Bool) (families : List QueueFamily) (v : Nat) : Prop :=
  (∃ f, families[v]? = some f ∧ p f = true)
    ∧ ∀ j f, v < j → families[j]? = some f → p f = false

/-- Some family of the list supports graphics and some family of it supports
presentation. -/
def both_capabilities (families : List QueueFamily) : Prop :=
  (∃ f ∈ families, supports_graphics f = true) ∧ (∃ f ∈ families, supports_present f = true)

/-- Each capability is assigned in `indices` already or occurs among `visited`. -/
def seen_both (indices : queue_family_indices) (visited : List QueueFamily) : Prop :=
  (indices.graphics_family.assigned = true ∨ ∃ f ∈ visited, supports_graphics f = true)
    ∧ (indices.present_family.assigned = true ∨ ∃ f ∈ visited, supports_present f = true)

/-- The special value `(0xFFFFFFFF, 0xFFFFFFFF)` by which a surface reports that its
extent is undefined. -/
def undefined_extent : VkExtent2D := { width := UINT_MAX, height := UINT_MAX }

/-- A surface format that is `R8G8B8A8_SRGB` in the `SRGB_NONLINEAR` colour space. -/
def is_rgba8_srgb (format : VkSurfaceFormatKHR) : Prop :=
  format.format = VK_FORMAT_R8G8B8A8_SRGB ∧
    format.colorSpace = VK_COLOR_SPACE_SRGB_NONLINEAR_KHR

instance (format : VkSurfaceFormatKHR) : Decidable (is_rgba8_srgb format) :=
  inferInstanceAs (Decidable (format.format = VK_FORMAT_R8G8B8A8_SRGB ∧
    format.colorSpace = VK_COLOR_SPACE_SRGB_NONLINEAR_KHR))

/-- The twelve functions in the order in which `init_vulkan` calls them. -/
def init_steps : List Step :=
  [ Step.create_instance, Step.create_surface, Step.init_device,
    Step.create_logical_device, Step.create_swap_chain, Step.create_image_view,
    Step.create_render_pass, Step.create_graphics_pipeline, Step.create_frame_buffer,
    Step.create_command_pool, Step.create_command_buffer, Step.create_sync_objects ]

/-- The diagnostic line that names each of the twelve functions. -/
def diagnostic : Step → String
  | Step.create_instance => "Failed to create instance"
  | Step.create_surface => "Failed to create surface"
  | Step.init_device => "Failed to create device"
  | Step.create_logical_device => "Failed to create logical device"
  | Step.create_swap_chain => "Failed to create swap chain"
  | Step.create_image_view => "Failed to create image view"
  | Step.create_render_pass => "Failed to create render pass"
  | Step.create_graphics_pipeline => "Failed to create graphics pipeline"
  | Step.create_frame_buffer => "Failed to create frame buffers"
  | Step.create_command_pool => "Failed to create command pool"
  | Step.create_command_buffer => "Failed to create command buffer"
  | Step.create_sync_objects => "Failed to create sync objects"

/-- Running a list of steps in order up to the first one whose status is not
`VK_SUCCESS`, which is followed by its diagnostic line and nothing else. -/
def run_steps (status : Step → VkResult) : List Step → VkResult × List Op
  | [] => (VK_SUCCESS, [])
  | step :: rest =>
    if status step ≠ VK_SUCCESS then
      (status step, [Op.call step, Op.puts (diagnostic step)])
    else
      match run_steps status rest with
      | (result, trace) => (result, Op.call step :: trace)

/-- The calls of `count` consecutive iterations of `main_loop`, the first one being
iteration number `start`. -/
def loop_trace (acquired : Nat → Nat) (swap_chain_extent : VkExtent2D) : Nat → Nat → List Op
  | _, 0 => []
  | start, count + 1 =>
    Op.glfwPollEvents ::
      (draw_frame (acquired start) swap_chain_extent
        ++ loop_trace acquired swap_chain_extent (start + 1) count)

/-- The in-flight fence as one bit: a successful creation initialises it from the
SIGNALED flag, a reset clears it, a submit that names the fence sets it; every
other call leaves it alone. -/
def fence_step (signalled : Bool) : Op → Bool
  | Op.vkCreateFence fence flags result =>
    if fence = GpuObject.in_flight_fence ∧ result = VK_SUCCESS then
      (flags &&& VK_FENCE_CREATE_SIGNALED_BIT) != 0
    else signalled
  | Op.vkResetFences fence =>
    if fence = GpuObject.in_flight_fence then false else signalled
  | Op.vkQueueSubmit _ _ _ _ fence =>
    if fence = some GpuObject.in_flight_fence then true else signalled
  | _ => signalled

/-- Following the fence bit along a sequence of calls: `none` when a wait on the
in-flight fence is reached with the bit clear (the wait would not return),
otherwise the bit after the last call. -/
def fence_run : Bool → List Op → Option Bool
  | signalled, [] => some signalled
  | signalled, Op.vkWaitForFences fence :: rest =>
    if fence = GpuObject.in_flight_fence ∧ signalled = false then none
    else fence_run signalled rest
  | signalled, op :: rest => fence_run (fence_step signalled op) rest

/-- The calls behind a sequence of calls: each `call` of one of the twelve functions
is followed by what that function does when all goes well. -/
def expand_calls (swap_chain_images_count : Nat) : List Op → List Op
  | [] => []
  | Op.call step :: rest =>
    Op.call step :: (step_ops swap_chain_images_count step
      ++ expand_calls swap_chain_images_count rest)
  | op :: rest => op :: expand_calls swap_chain_images_count rest

/-- The objects a sequence of calls creates, in order. -/
def created_objects : List Op → List GpuObject
  | [] => []
  | Op.create object :: rest => object :: created_objects rest
  | Op.vkCreateSemaphore semaphore result :: rest =>
    if result = VK_SUCCESS then semaphore :: created_objects rest else created_objects rest
  | Op.vkCreateFence fence _ result :: rest =>
    if result = VK_SUCCESS then fence :: created_objects rest else created_objects rest
  | _ :: rest => created_objects rest

/-- The objects a sequence of calls destroys, in order. -/
def destroyed_objects : List Op → List GpuObject
  | [] => []
  | Op.destroy object :: rest => object :: destroyed_objects rest
  | _ :: rest => destroyed_objects rest

/-- The item of the creation sequence an object belongs to: the image views are
one item, the framebuffers one and the two semaphores one, each represented by
its first member. -/
def object_group : GpuObject → GpuObject
  | GpuObject.swap_chain_image_view _ => GpuObject.swap_chain_image_view 0
  | GpuObject.swap_chain_frame_buffer _ => GpuObject.swap_chain_frame_buffer 0
  | GpuObject.render_finished_semaphore => GpuObject.image_available_semaphore
  | object => object

/-- The status assignment under which each of the twelve functions succeeds. -/
def all_succeed : Step → VkResult := fun _ => VK_SUCCESS

/-- The status assignment under which `create_swap_chain` alone fails, with
`VK_ERROR_INITIALIZATION_FAILED` (-3). -/
def swap_chain_fails : Step → VkResult
  | Step.create_swap_chain => -3
  | _ => VK_SUCCESS

/-! ## Theorems -/

/-! ### Queue families -/

theorem highest_index_succ (p : QueueFamily → Bool) (f : QueueFamily) (l : List QueueFamily)
    (v : Nat) (h : highest_index p l v) : highest_index p (f :: l) (v + 1) := by
  obtain ⟨⟨x, hx, hpx⟩, hhi⟩ := h
  refine ⟨⟨x, by simpa using hx, hpx⟩, ?_⟩
  intro j y hj hy
  cases j with
  | zero => omega
  | succ j =>
    simp only [List.getElem?_cons_succ] at hy
    exact hhi j y (by omega) hy

theorem highest_index_head (p : QueueFamily → Bool) (f : QueueFamily) (l : List QueueFamily)
    (hf : p f = true) (hl : ∀ x ∈ l, p x = false) : highest_index p (f :: l) 0 := by
  refine ⟨⟨f, by simp, hf⟩, ?_⟩
  intro j y hj hy
  cases j with
  | zero => omega
  | succ j =>
    simp only [List.getElem?_cons_succ] at hy
    exact hl y (List.getElem?_mem hy)

theorem highest_index_mem (p : QueueFamily → Bool) (l : List QueueFamily) (v : Nat)
    (h : highest_index p l v) : ∃ f ∈ l, p f = true := by
  obtain ⟨⟨x, hx, hpx⟩, _⟩ := h
  exact ⟨x, List.getElem?_mem hx, hpx⟩

/-- One field across one more family in front: `old` is the field before the
family `f` at index `i`, `new` the field after the step, `res` the final field. -/
theorem scan_field_cons (p : QueueFamily → Bool) (f : QueueFamily) (l : List QueueFamily)
    (i : Nat) (old new res : optional_uint32_t)
    (hnew : new = if p f = true then { value := i, assigned := true } else old)
    (h : (res.assigned = true ∧ ∃ v, res.value = (i + 1) + v ∧ highest_index p l v)
        ∨ (res = new ∧ ∀ x ∈ l, p x = false)) :
    (res.assigned = true ∧ ∃ v, res.value = i + v ∧ highest_index p (f :: l) v)
      ∨ (res = old ∧ ∀ x ∈ f :: l, p x = false) := by
  rcases h with ⟨hassigned, v, hv, hhi⟩ | ⟨hres, hl⟩
  · exact Or.inl ⟨hassigned, v + 1, by omega, highest_index_succ p f l v hhi⟩
  · by_cases hf : p f = true
    · rw [if_pos hf] at hnew
      refine Or.inl ⟨by rw [hres, hnew], 0, by rw [hres, hnew]; rfl,
        highest_index_head p f l hf hl⟩
    · rw [if_neg hf] at hnew
      refine Or.inr ⟨by rw [hres, hnew], ?_⟩
      intro x hx
      rcases List.mem_cons.mp hx with rfl | hx
      · simpa using hf
      · exact hl x hx

theorem find_queue_families_step_graphics (family : QueueFamily) (i : Nat)
    (indices : queue_family_indices) :
    (find_queue_families_step family i indices).graphics_family
      = if supports_graphics family = true then { value := i, assigned := true }
        else indices.graphics_family := by
  unfold find_queue_families_step
  by_cases hg : supports_graphics family = true <;>
    by_cases hp : supports_present family = true <;> simp [hg, hp]

theorem find_queue_families_step_present (family : QueueFamily) (i : Nat)
    (indices : queue_family_indices) :
    (find_queue_families_step family i indices).present_family
      = if supports_present family = true then { value := i, assigned := true }
        else indices.present_family := by
  unfold find_queue_families_step
  by_cases hg : supports_graphics family = true <;>
    by_cases hp : supports_present family = true <;> simp [hg, hp]

theorem seen_both_step (family : QueueFamily) (i : Nat) (indices : queue_family_indices)
    (l : List QueueFamily) :
    seen_both (find_queue_families_step family i indices) l ↔ seen_both indices (family :: l) := by
  unfold seen_both
  rw [find_queue_families_step_graphics, find_queue_families_step_present]
  by_cases hg : supports_graphics family = true <;>
    by_cases hp : supports_present family = true <;> simp [hg, hp]

theorem seen_both_nil (indices : queue_family_indices) :
    seen_both indices []
      ↔ (indices.graphics_family.assigned = true ∧ indices.present_family.assigned = true) := by
  simp [seen_both]

/-- The loop visits the shortest initial segment (of length `n`) after which both
fields are assigned, or everything, and each field ends as the highest capable
index of that segment, or as it was when the segment has no capable family. -/
theorem find_queue_families_loop_scan :
    ∀ (fs : List QueueFamily) (i : Nat) (indices : queue_family_indices),
      ¬ (indices.graphics_family.assigned = true ∧ indices.present_family.assigned = true) →
      ∃ n, n ≤ fs.length
        ∧ (n < fs.length → seen_both indices (fs.take n))
        ∧ (∀ m, m < n → ¬ seen_both indices (fs.take m))
        ∧ (((find_queue_families_loop fs i indices).graphics_family.assigned = true
              ∧ ∃ v, (find_queue_families_loop fs i indices).graphics_family.value = i + v
                  ∧ highest_index supports_graphics (fs.take n) v)
            ∨ ((find_queue_families_loop fs i indices).graphics_family
                  = indices.graphics_family
                ∧ ∀ x ∈ fs.take n, supports_graphics x = false))
        ∧ (((find_queue_families_loop fs i indices).present_family.assigned = true
              ∧ ∃ v, (find_queue_families_loop fs i indices).present_family.value = i + v
                  ∧ highest_index supports_present (fs.take n) v)
            ∨ ((find_queue_families_loop fs i indices).present_family
                  = indices.present_family
                ∧ ∀ x ∈ fs.take n, supports_present x = false)) := by
  intro fs
  induction fs with
  | nil =>
    intro i indices _
    exact ⟨0, Nat.le_refl _, fun h => absurd h (Nat.lt_irrefl _),
      fun m hm => absurd hm (Nat.not_lt_zero m),
      Or.inr ⟨rfl, by simp⟩, Or.inr ⟨rfl, by simp⟩⟩
  | cons f rest ih =>
    intro i indices hnot
    by_cases hbrk : (find_queue_families_step f i indices).graphics_family.assigned = true
        ∧ (find_queue_families_step f i indices).present_family.assigned = true
    · have hloop : find_queue_families_loop (f :: rest) i indices
          = find_queue_families_step f i indices := by
        simp [find_queue_families_loop, hbrk.1, hbrk.2]
      rw [hloop]
      refine ⟨1, by simp, ?_, ?_, ?_, ?_⟩
      · intro _
        simp only [List.take_succ_cons, List.take_zero]
        exact (seen_both_step f i indices []).mp ((seen_both_nil _).mpr hbrk)
      · intro m hm
        have hm0 : m = 0 := by omega
        subst hm0
        simp only [List.take_zero]
        exact fun h => hnot ((seen_both_nil _).mp h)
      · simp only [List.take_succ_cons, List.take_zero]
        exact scan_field_cons supports_graphics f [] i indices.graphics_family
          (find_queue_families_step f i indices).graphics_family _
          (find_queue_families_step_graphics f i indices) (Or.inr ⟨rfl, by simp⟩)
      · simp only [List.take_succ_cons, List.take_zero]
        exact scan_field_cons supports_present f [] i indices.present_family
          (find_queue_families_step f i indices).present_family _
          (find_queue_families_step_present f i indices) (Or.inr ⟨rfl, by simp⟩)
    · have hloop : find_queue_families_loop (f :: rest) i indices
          = find_queue_families_loop rest (i + 1) (find_queue_families_step f i indices) := by
        have hb : ((find_queue_families_step f i indices).graphics_family.assigned
            && (find_queue_families_step f i indices).present_family.assigned) = false := by
          cases hgb : (find_queue_families_step f i indices).graphics_family.assigned <;>
            cases hpb : (find_queue_families_step f i indices).present_family.assigned <;>
            simp_all
        simp [find_queue_families_loop, hb]
      rw [hloop]
      obtain ⟨n, hn, hstop, hbefore, hgfx, hprs⟩ :=
        ih (i + 1) (find_queue_families_step f i indices) hbrk
      refine ⟨n + 1, by simpa using hn, ?_, ?_, ?_, ?_⟩
      · intro hlt
        simp only [List.take_succ_cons]
        exact (seen_both_step f i indices _).mp (hstop (by simpa using hlt))
      · intro m hm
        cases m with
        | zero =>
          simp only [List.take_zero]
          exact fun h => hnot ((seen_both_nil _).mp h)
        | succ m =>
          simp only [List.take_succ_cons]
          exact fun h => hbefore m (by omega) ((seen_both_step f i indices _).mpr h)
      · simp only [List.take_succ_cons]
        exact scan_field_cons supports_graphics f _ i indices.graphics_family
          (find_queue_families_step f i indices).graphics_family _
          (find_queue_families_step_graphics f i indices) hgfx
      · simp only [List.take_succ_cons]
        exact scan_field_cons supports_present f _ i indices.present_family
          (find_queue_families_step f i indices).present_family _
          (find_queue_families_step_present f i indices) hprs

theorem seen_both_of_unassigned (stack : queue_family_indices) (l : List QueueFamily)
    (hg : stack.graphics_family.assigned = false) (hp : stack.present_family.assigned = false) :
    seen_both stack l ↔ both_capabilities l := by
  simp [seen_both, both_capabilities, hg, hp]

/-- C3 as stated fails on `two_graphics_device` (families 0 and 1 do graphics,
family 1 alone presents): the returned graphics family is 1 although family 0 is
the lowest that supports graphics; and on `two_present_device` the returned
present family is 1 although family 0 is the lowest that supports presentation. -/
theorem find_queue_families_lowest_counterexample :
    (find_queue_families unassigned_indices two_graphics_device).graphics_family
        = { value := 1, assigned := true }
    ∧ lowest_index supports_graphics two_graphics_device.families 0
    ∧ ¬ lowest_index supports_graphics two_graphics_device.families
        (find_queue_families unassigned_indices two_graphics_device).graphics_family.value
    ∧ (find_queue_families unassigned_indices two_present_device).present_family
        = { value := 1, assigned := true }
    ∧ lowest_index supports_present two_present_device.families 0
    ∧ ¬ lowest_index supports_present two_present_device.families
        (find_queue_families unassigned_indices two_present_device).present_family.value := by
  refine ⟨by decide, ⟨⟨_, rfl, by decide⟩, fun j _ hj => absurd hj (Nat.not_lt_zero j)⟩, ?_,
    by decide, ⟨⟨_, rfl, by decide⟩, fun j _ hj => absurd hj (Nat.not_lt_zero j)⟩, ?_⟩
  · have hv : (find_queue_families unassigned_indices
        two_graphics_device).graphics_family.value = 1 := by decide
    rw [hv]
    intro h
    have h0 := h.2 0 { queueFlags := 1, present_support := 0 } (by decide) rfl
    revert h0
    decide
  · have hv : (find_queue_families unassigned_indices
        two_present_device).present_family.value = 1 := by decide
    rw [hv]
    intro h
    have h0 := h.2 0 { queueFlags := 4, present_support := 1 } (by decide) rfl
    revert h0
    decide

/-- C3 amended: scanning from a result with both fields unassigned,
`find_queue_families` visits the shortest initial segment of the family list in
which both a graphics family and a presentation family occur (the whole list when
there is none); the returned `graphics_family` is the highest index in that
segment whose family supports graphics and the returned `present_family` the
highest index in it whose family supports presentation; a field is left
unassigned exactly when no family of the device has that capability.  When the
only capable family is index 2, supporting both, the result is graphics 2,
present 2. -/
theorem find_queue_families_scan (stack : queue_family_indices) (device : VkPhysicalDevice)
    (hg : stack.graphics_family.assigned = false)
    (hp : stack.present_family.assigned = false) :
    (∃ n, n ≤ device.families.length
      ∧ (n < device.families.length → both_capabilities (device.families.take n))
      ∧ (∀ m, m < n → ¬ both_capabilities (device.families.take m))
      ∧ ((find_queue_families stack device).graphics_family.assigned = true →
          highest_index supports_graphics (device.families.take n)
            (find_queue_families stack device).graphics_family.value)
      ∧ ((find_queue_families stack device).present_family.assigned = true →
          highest_index supports_present (device.families.take n)
            (find_queue_families stack device).present_family.value))
    ∧ ((find_queue_families stack device).graphics_family.assigned = false ↔
        ∀ f ∈ device.families, supports_graphics f = false)
    ∧ ((find_queue_families stack device).present_family.assigned = false ↔
        ∀ f ∈ device.families, supports_present f = false)
    ∧ (∀ f0 f1 f2 rest, device.families = f0 :: f1 :: f2 :: rest →
        supports_graphics f0 = false → supports_present f0 = false →
        supports_graphics f1 = false → supports_present f1 = false →
        supports_graphics f2 = true → supports_present f2 = true →
        find_queue_families stack device
          = { graphics_family := { value := 2, assigned := true },
              present_family := { value := 2, assigned := true } }) := by
  have hnot : ¬ (stack.graphics_family.assigned = true ∧ stack.present_family.assigned = true) := by
    simp [hg]
  obtain ⟨n, hn, hstop, hbefore, hgfx, hprs⟩ :=
    find_queue_families_loop_scan device.families 0 stack hnot
  have hstop' : n < device.families.length → both_capabilities (device.families.take n) :=
    fun h => (seen_both_of_unassigned stack _ hg hp).mp (hstop h)
  have hwhole : ∀ p : QueueFamily → Bool, (∀ x ∈ device.families.take n, p x = false) →
      (p = supports_graphics ∨ p = supports_present) → ∀ f ∈ device.families, p f = false := by
    intro p hnone hp' f hf
    by_cases hlt : n < device.families.length
    · obtain ⟨⟨a, ha, hga⟩, ⟨b, hb, hpb⟩⟩ := hstop' hlt
      rcases hp' with rfl | rfl
      · rw [hnone a ha] at hga
        exact Bool.noConfusion hga
      · rw [hnone b hb] at hpb
        exact Bool.noConfusion hpb
    · have hall : device.families.take n = device.families :=
        List.take_of_length_le (by omega)
      rw [hall] at hnone
      exact hnone f hf
  have hgfx' : ((find_queue_families stack device).graphics_family.assigned = true
        ∧ highest_index supports_graphics (device.families.take n)
            (find_queue_families stack device).graphics_family.value)
      ∨ ((find_queue_families stack device).graphics_family.assigned = false
        ∧ ∀ f ∈ device.families, supports_graphics f = false) := by
    unfold find_queue_families
    rcases hgfx with ⟨ha, v, hv, hhi⟩ | ⟨heq, hnone⟩
    · left
      rw [hv, Nat.zero_add]
      exact ⟨ha, hhi⟩
    · right
      rw [heq]
      exact ⟨hg, hwhole _ hnone (Or.inl rfl)⟩
  have hprs' : ((find_queue_families stack device).present_family.assigned = true
        ∧ highest_index supports_present (device.families.take n)
            (find_queue_families stack device).present_family.value)
      ∨ ((find_queue_families stack device).present_family.assigned = false
        ∧ ∀ f ∈ device.families, supports_present f = false) := by
    unfold find_queue_families
    rcases hprs with ⟨ha, v, hv, hhi⟩ | ⟨heq, hnone⟩
    · left
      rw [hv, Nat.zero_add]
      exact ⟨ha, hhi⟩
    · right
      rw [heq]
      exact ⟨hp, hwhole _ hnone (Or.inr rfl)⟩
  refine ⟨⟨n, hn, hstop', ?_, ?_, ?_⟩, ?_, ?_, ?_⟩
  · exact fun m hm h => hbefore m hm ((seen_both_of_unassigned stack _ hg hp).mpr h)
  · intro ha
    rcases hgfx' with h | h
    · exact h.2
    · rw [h.1] at ha
      exact Bool.noConfusion ha
  · intro ha
    rcases hprs' with h | h
    · exact h.2
    · rw [h.1] at ha
      exact Bool.noConfusion ha
  · constructor
    · intro ha
      rcases hgfx' with h | h
      · rw [h.1] at ha
        exact Bool.noConfusion ha
      · exact h.2
    · intro hnone
      rcases hgfx' with h | h
      · obtain ⟨f, hf, hgf⟩ := highest_index_mem _ _ _ h.2
        rw [hnone f (List.mem_of_mem_take hf)] at hgf
        exact Bool.noConfusion hgf
      · exact h.1
  · constructor
    · intro ha
      rcases hprs' with h | h
      · rw [h.1] at ha
        exact Bool.noConfusion ha
      · exact h.2
    · intro hnone
      rcases hprs' with h | h
      · obtain ⟨f, hf, hpf⟩ := highest_index_mem _ _ _ h.2
        rw [hnone f (List.mem_of_mem_take hf)] at hpf
        exact Bool.noConfusion hpf
      · exact h.1
  · intro f0 f1 f2 rest hfs hg0 hp0 hg1 hp1 hg2 hp2
    simp [find_queue_families, hfs, find_queue_families_loop, find_queue_families_step,
      hg0, hp0, hg1, hp1, hg2, hp2, hg, hp]

/-- C3 amended, at `third_family_device` (only family 2 is capable, of both): from
an unassigned result the scan returns graphics 2, present 2. -/
theorem find_queue_families_scan_witness :
    find_queue_families unassigned_indices third_family_device
      = { graphics_family := { value := 2, assigned := true },
          present_family := { value := 2, assigned := true } } :=
  (find_queue_families_scan unassigned_indices third_family_device rfl rfl).2.2.2
    _ _ _ [] rfl (by decide) (by decide) (by decide) (by decide) (by decide) (by decide)

/-! ### Device selection -/

theorem init_device_loop_first (stack : queue_family_indices) (d : VkPhysicalDevice)
    (post : List VkPhysicalDevice) :
    ∀ pre : List VkPhysicalDevice, (∀ x ∈ pre, device_suitable stack x = false) →
      device_suitable stack d = true →
      init_device_loop stack (pre ++ d :: post) = some d := by
  intro pre
  induction pre with
  | nil =>
    intro _ hd
    simp [init_device_loop, hd]
  | cons a pre ih =>
    intro hpre hd
    have ha : device_suitable stack a = false := hpre a (List.mem_cons_self a pre)
    have hrest : ∀ x ∈ pre, device_suitable stack x = false :=
      fun x hx => hpre x (List.mem_cons_of_mem a hx)
    simp [init_device_loop, ha, ih hrest hd]

theorem init_device_loop_none (stack : queue_family_indices) :
    ∀ devices : List VkPhysicalDevice,
      init_device_loop stack devices = VK_NULL_HANDLE ↔
        ∀ x ∈ devices, device_suitable stack x = false := by
  intro devices
  induction devices with
  | nil => simp [init_device_loop]
  | cons a rest ih =>
    cases ha : device_suitable stack a with
    | false => simp [init_device_loop, ha, ih]
    | true => simp [init_device_loop, ha, VK_NULL_HANDLE]

theorem init_device_loop_some (stack : queue_family_indices) :
    ∀ (devices : List VkPhysicalDevice) (d : VkPhysicalDevice),
      init_device_loop stack devices = some d →
        ∃ pre post, devices = pre ++ d :: post ∧
          (∀ x ∈ pre, device_suitable stack x = false) ∧ device_suitable stack d = true := by
  intro devices
  induction devices with
  | nil => intro d h; simp [init_device_loop, VK_NULL_HANDLE] at h
  | cons a rest ih =>
    intro d h
    cases ha : device_suitable stack a with
    | false =>
      simp [init_device_loop, ha] at h
      obtain ⟨pre, post, hsplit, hpre, hd⟩ := ih d h
      refine ⟨a :: pre, post, by simp [hsplit], ?_, hd⟩
      intro x hx
      rcases List.mem_cons.mp hx with rfl | hx
      · exact ha
      · exact hpre x hx
    | true =>
      simp [init_device_loop, ha] at h
      subst h
      exact ⟨[], rest, rfl, by simp, ha⟩

theorem init_device_status (stack : queue_family_indices) (devices : List VkPhysicalDevice) :
    init_device stack devices VK_NULL_HANDLE
      = (if init_device_loop stack devices = VK_NULL_HANDLE then c_not VK_SUCCESS
          else VK_SUCCESS, init_device_loop stack devices) := by
  cases devices with
  | nil => simp [init_device, init_device_loop]
  | cons a rest =>
    by_cases h : init_device_loop stack (a :: rest) = VK_NULL_HANDLE
    · simp [init_device, h]
    · simp [init_device, h]

/-- C1: started from the program's initial state (`physical_device` null),
`init_device` selects the first enumerated device for which `device_suitable` is
true and succeeds; it returns a non-success status, with `physical_device` null,
exactly when the list is empty or holds no suitable device.  A list
`[unsuitable, suitable]` selects the second device. -/
theorem init_device_selects_first_suitable (stack : queue_family_indices)
    (devices : List VkPhysicalDevice) :
    (∀ pre d post, devices = pre ++ d :: post →
        (∀ x ∈ pre, device_suitable stack x = false) → device_suitable stack d = true →
        init_device stack devices VK_NULL_HANDLE = (VK_SUCCESS, some d))
    ∧ ((init_device stack devices VK_NULL_HANDLE).1 = VK_SUCCESS →
        ∃ pre d post, devices = pre ++ d :: post ∧
          (∀ x ∈ pre, device_suitable stack x = false) ∧ device_suitable stack d = true ∧
          (init_device stack devices VK_NULL_HANDLE).2 = some d)
    ∧ ((init_device stack devices VK_NULL_HANDLE).1 ≠ VK_SUCCESS ↔
        (devices = [] ∨ ∀ x ∈ devices, device_suitable stack x = false))
    ∧ ((init_device stack devices VK_NULL_HANDLE).1 ≠ VK_SUCCESS →
        (init_device stack devices VK_NULL_HANDLE).2 = VK_NULL_HANDLE)
    ∧ (∀ a b, devices = [a, b] → device_suitable stack a = false →
        device_suitable stack b = true →
        init_device stack devices VK_NULL_HANDLE = (VK_SUCCESS, some b)) := by
  have hfirst : ∀ pre d post, devices = pre ++ d :: post →
      (∀ x ∈ pre, device_suitable stack x = false) → device_suitable stack d = true →
      init_device stack devices VK_NULL_HANDLE = (VK_SUCCESS, some d) := by
    intro pre d post hsplit hpre hd
    have hloop := init_device_loop_first stack d post pre hpre hd
    rw [init_device_status, hsplit, hloop]
    simp [VK_NULL_HANDLE]
  refine ⟨hfirst, ?_, ?_, ?_, ?_⟩
  · intro hok
    rw [init_device_status] at hok ⊢
    cases hloop : init_device_loop stack devices with
    | none => simp [hloop, VK_NULL_HANDLE, c_not, VK_SUCCESS] at hok
    | some d =>
      obtain ⟨pre, post, hsplit, hpre, hd⟩ := init_device_loop_some stack devices d hloop
      exact ⟨pre, d, post, hsplit, hpre, hd, rfl⟩
  · rw [init_device_status]
    constructor
    · intro hfail
      right
      by_cases hloop : init_device_loop stack devices = VK_NULL_HANDLE
      · exact (init_device_loop_none stack devices).mp hloop
      · simp [hloop] at hfail
    · intro h
      have hall : ∀ x ∈ devices, device_suitable stack x = false := by
        rcases h with h | h
        · subst h; simp
        · exact h
      have hloop := (init_device_loop_none stack devices).mpr hall
      simp [hloop, c_not, VK_SUCCESS]
  · rw [init_device_status]
    intro hfail
    by_cases hloop : init_device_loop stack devices = VK_NULL_HANDLE
    · simpa using hloop
    · simp [hloop] at hfail
  · intro a b hab ha hb
    refine hfirst [a] b [] (by simp [hab]) ?_ hb
    intro x hx
    rw [List.mem_singleton.mp hx]
    exact ha

/-- C1 at the list `[integrated_device, discrete_device]`: the first device is
skipped for its adapter type and the second is selected. -/
theorem init_device_selects_first_suitable_witness :
    init_device unassigned_indices [integrated_device, discrete_device] VK_NULL_HANDLE
      = (VK_SUCCESS, some discrete_device) :=
  (init_device_selects_first_suitable unassigned_indices
    [integrated_device, discrete_device]).2.2.2.2
    integrated_device discrete_device rfl (by decide) (by decide)

/-- What `device_suitable` tests: the graphics family is assigned, the required
extensions are supported, the surface has a format and a present mode, the
adapter is a discrete GPU with geometry shaders.  The present family is not
among the tests. -/
theorem device_suitable_iff (stack : queue_family_indices) (device : VkPhysicalDevice) :
    device_suitable stack device = true ↔
      (find_queue_families stack device).graphics_family.assigned = true
      ∧ check_extension_support device = true
      ∧ device.formats ≠ [] ∧ device.present_modes ≠ []
      ∧ device.deviceType = VK_PHYSICAL_DEVICE_TYPE_DISCRETE_GPU
      ∧ device.geometryShader ≠ 0 := by
  unfold device_suitable query_swap_chain_details
  cases hga : (find_queue_families stack device).graphics_family.assigned <;>
    cases hext : check_extension_support device <;>
    simp [hga, hext]
  tauto

/-- C2: `device_suitable` judges `no_present_device` suitable although none of its
queue families can present to the surface: the check on `present_family.assigned`
is missing next to the one on `graphics_family.assigned`. -/
theorem device_suitable_without_present_family :
    device_suitable unassigned_indices no_present_device = true
    ∧ (∀ family ∈ no_present_device.families, supports_present family = false)
    ∧ (find_queue_families unassigned_indices no_present_device).present_family.assigned
        = false := by
  decide

/-- C4: with `no_present_device` the only enumerated device, `init_device` succeeds
and `create_logical_device` reaches `vkCreateDevice` while `present_family` is
unassigned. -/
theorem device_bring_up_unassigned_present_family :
    ∃ indices info,
      device_bring_up unassigned_indices [no_present_device] = some (indices, info)
      ∧ indices = find_queue_families unassigned_indices no_present_device
      ∧ indices.graphics_family.assigned = true
      ∧ indices.present_family.assigned = false :=
  ⟨_, _, rfl, rfl, rfl, rfl⟩

/-! ### Surface format and present mode -/

theorem surface_format_loop_first (f : VkSurfaceFormatKHR) (post : List VkSurfaceFormatKHR) :
    ∀ pre : List VkSurfaceFormatKHR, (∀ x ∈ pre, ¬ is_rgba8_srgb x) → is_rgba8_srgb f →
      choose_swap_chain_surface_format_loop (pre ++ f :: post) = some f := by
  intro pre
  induction pre with
  | nil =>
    intro _ hf
    simp [choose_swap_chain_surface_format_loop, hf.1, hf.2]
  | cons a pre ih =>
    intro hpre hf
    have ha : ¬ is_rgba8_srgb a := hpre a (List.mem_cons_self a pre)
    have hrest : ∀ x ∈ pre, ¬ is_rgba8_srgb x :=
      fun x hx => hpre x (List.mem_cons_of_mem a hx)
    have hih := ih hrest hf
    unfold is_rgba8_srgb at ha
    by_cases h1 : a.format = VK_FORMAT_R8G8B8A8_SRGB
    · have h2 : a.colorSpace ≠ VK_COLOR_SPACE_SRGB_NONLINEAR_KHR := fun h => ha ⟨h1, h⟩
      simp [choose_swap_chain_surface_format_loop, h1, h2, hih]
    · simp [choose_swap_chain_surface_format_loop, h1, hih]

theorem surface_format_loop_none :
    ∀ formats : List VkSurfaceFormatKHR, (∀ x ∈ formats, ¬ is_rgba8_srgb x) →
      choose_swap_chain_surface_format_loop formats = none := by
  intro formats
  induction formats with
  | nil => intro _; rfl
  | cons a rest ih =>
    intro hall
    have ha : ¬ is_rgba8_srgb a := hall a (List.mem_cons_self a rest)
    have hih := ih (fun x hx => hall x (List.mem_cons_of_mem a hx))
    unfold is_rgba8_srgb at ha
    by_cases h1 : a.format = VK_FORMAT_R8G8B8A8_SRGB
    · have h2 : a.colorSpace ≠ VK_COLOR_SPACE_SRGB_NONLINEAR_KHR := fun h => ha ⟨h1, h⟩
      simp [choose_swap_chain_surface_format_loop, h1, h2, hih]
    · simp [choose_swap_chain_surface_format_loop, h1, hih]

theorem surface_format_loop_some :
    ∀ (formats : List VkSurfaceFormatKHR) (f : VkSurfaceFormatKHR),
      choose_swap_chain_surface_format_loop formats = some f →
        ∃ x ∈ formats, is_rgba8_srgb x := by
  intro formats f hloop
  by_contra hnone
  have hall : ∀ x ∈ formats, ¬ is_rgba8_srgb x := fun x hx hp => hnone ⟨x, hx, hp⟩
  rw [surface_format_loop_none formats hall] at hloop
  exact Option.noConfusion hloop

/-- C5: on a non-empty list `first :: rest`, `choose_swap_chain_surface_format`
returns an entry: the first one that is R8G8B8A8_SRGB with SRGB_NONLINEAR when
there is one, and `first` itself when there is none. -/
theorem choose_swap_chain_surface_format_first_match (first : VkSurfaceFormatKHR)
    (rest : List VkSurfaceFormatKHR) :
    ∃ r, choose_swap_chain_surface_format (first :: rest) = some r
      ∧ (∀ pre f post, first :: rest = pre ++ f :: post →
          (∀ x ∈ pre, ¬ is_rgba8_srgb x) → is_rgba8_srgb f → r = f)
      ∧ ((∀ x ∈ first :: rest, ¬ is_rgba8_srgb x) → r = first) := by
  cases hloop : choose_swap_chain_surface_format_loop (first :: rest) with
  | none =>
    refine ⟨first, by simp [choose_swap_chain_surface_format, hloop], ?_, fun _ => rfl⟩
    intro pre f post hsplit hpre hf
    rw [hsplit, surface_format_loop_first f post pre hpre hf] at hloop
    exact Option.noConfusion hloop
  | some r =>
    refine ⟨r, by simp [choose_swap_chain_surface_format, hloop], ?_, ?_⟩
    · intro pre f post hsplit hpre hf
      rw [hsplit, surface_format_loop_first f post pre hpre hf] at hloop
      exact (Option.some.inj hloop).symm
    · intro hall
      rw [surface_format_loop_none _ hall] at hloop
      exact Option.noConfusion hloop

/-- C5 at the single-entry list `[{B8G8R8A8_SRGB, SRGB_NONLINEAR}]`: the result is
that entry. -/
theorem choose_swap_chain_surface_format_first_match_witness :
    choose_swap_chain_surface_format
        [{ format := VK_FORMAT_B8G8R8A8_SRGB, colorSpace := VK_COLOR_SPACE_SRGB_NONLINEAR_KHR }]
      = some { format := VK_FORMAT_B8G8R8A8_SRGB,
               colorSpace := VK_COLOR_SPACE_SRGB_NONLINEAR_KHR } := by
  obtain ⟨r, hr, _, hnone⟩ := choose_swap_chain_surface_format_first_match
    { format := VK_FORMAT_B8G8R8A8_SRGB, colorSpace := VK_COLOR_SPACE_SRGB_NONLINEAR_KHR } []
  rw [hr, hnone (by decide)]

/-- C6: `choose_swap_chain_present_mode` returns MAILBOX when MAILBOX occurs in the
list and FIFO when it does not (the empty list included); `[FIFO]` gives FIFO and
`[FIFO, MAILBOX]` gives MAILBOX. -/
theorem choose_swap_chain_present_mode_mailbox_or_fifo (modes : List Nat) :
    (VK_PRESENT_MODE_MAILBOX_KHR ∈ modes →
        choose_swap_chain_present_mode modes = VK_PRESENT_MODE_MAILBOX_KHR)
    ∧ (VK_PRESENT_MODE_MAILBOX_KHR ∉ modes →
        choose_swap_chain_present_mode modes = VK_PRESENT_MODE_FIFO_KHR)
    ∧ choose_swap_chain_present_mode [VK_PRESENT_MODE_FIFO_KHR] = VK_PRESENT_MODE_FIFO_KHR
    ∧ choose_swap_chain_present_mode [VK_PRESENT_MODE_FIFO_KHR, VK_PRESENT_MODE_MAILBOX_KHR]
        = VK_PRESENT_MODE_MAILBOX_KHR := by
  refine ⟨?_, ?_, by decide, by decide⟩
  · induction modes with
    | nil => intro h; simp at h
    | cons a rest ih =>
      intro h
      by_cases ha : a = VK_PRESENT_MODE_MAILBOX_KHR
      · simp [choose_swap_chain_present_mode, ha]
      · have hrest : VK_PRESENT_MODE_MAILBOX_KHR ∈ rest := by
          rcases List.mem_cons.mp h with h | h
          · exact absurd h.symm ha
          · exact h
        simp [choose_swap_chain_present_mode, ha, ih hrest]
  · induction modes with
    | nil => intro _; rfl
    | cons a rest ih =>
      intro h
      have ha : a ≠ VK_PRESENT_MODE_MAILBOX_KHR := fun e => h (by simp [e])
      have hrest : VK_PRESENT_MODE_MAILBOX_KHR ∉ rest := fun e => h (List.mem_cons_of_mem a e)
      simp [choose_swap_chain_present_mode, ha, ih hrest]

/-- C6 at the empty list and at `[IMMEDIATE, MAILBOX, FIFO]`. -/
theorem choose_swap_chain_present_mode_mailbox_or_fifo_witness :
    choose_swap_chain_present_mode [] = VK_PRESENT_MODE_FIFO_KHR
    ∧ choose_swap_chain_present_mode
        [VK_PRESENT_MODE_IMMEDIATE_KHR, VK_PRESENT_MODE_MAILBOX_KHR, VK_PRESENT_MODE_FIFO_KHR]
      = VK_PRESENT_MODE_MAILBOX_KHR :=
  ⟨(choose_swap_chain_present_mode_mailbox_or_fifo []).2.1 (by decide),
   (choose_swap_chain_present_mode_mailbox_or_fifo
      [VK_PRESENT_MODE_IMMEDIATE_KHR, VK_PRESENT_MODE_MAILBOX_KHR,
        VK_PRESENT_MODE_FIFO_KHR]).1 (by decide)⟩

/-! ### Swapchain parameters -/

theorem clamp_in_range (number lo hi : Nat) (h : lo ≤ hi) :
    lo ≤ clamp number lo hi ∧ clamp number lo hi ≤ hi := by
  unfold clamp
  split_ifs <;> omega

theorem clamp_of_in_range (number lo hi : Nat) (h1 : lo ≤ number) (h2 : number ≤ hi) :
    clamp number lo hi = number := by
  unfold clamp
  split_ifs <;> omega

theorem to_uint32_of_nonneg (x : Int) (h0 : 0 ≤ x) (h1 : x < 4294967296) :
    to_uint32 x = x.toNat := by
  unfold to_uint32
  rw [Int.emod_eq_of_lt h0 h1]

theorem choose_swap_chain_surface_format_some (formats : List VkSurfaceFormatKHR)
    (h : formats ≠ []) : ∃ r, choose_swap_chain_surface_format formats = some r := by
  cases formats with
  | nil => exact absurd rfl h
  | cons first rest =>
    cases hloop : choose_swap_chain_surface_format_loop (first :: rest) with
    | none => exact ⟨first, by simp [choose_swap_chain_surface_format, hloop]⟩
    | some r => exact ⟨r, by simp [choose_swap_chain_surface_format, hloop]⟩

theorem create_swap_chain_fields (stack : queue_family_indices)
    (physical_device : VkPhysicalDevice) (framebuffer : Int × Int)
    (h : physical_device.formats ≠ []) :
    ∃ ci, create_swap_chain stack physical_device framebuffer = some ci
      ∧ ci.minImageCount = swap_chain_image_count physical_device.capabilities
      ∧ ci.imageExtent = choose_swap_chain_extent physical_device.capabilities framebuffer
      ∧ ((find_queue_families stack physical_device).graphics_family.value
            = (find_queue_families stack physical_device).present_family.value →
          ci.imageSharingMode = VK_SHARING_MODE_EXCLUSIVE)
      ∧ ((find_queue_families stack physical_device).graphics_family.value
            ≠ (find_queue_families stack physical_device).present_family.value →
          ci.imageSharingMode = VK_SHARING_MODE_CONCURRENT
          ∧ ci.queueFamilyIndexCount = 2
          ∧ ci.pQueueFamilyIndices
              = some [(find_queue_families stack physical_device).graphics_family.value,
                      (find_queue_families stack physical_device).present_family.value]) := by
  obtain ⟨r, hr⟩ := choose_swap_chain_surface_format_some physical_device.formats h
  by_cases hgp : (find_queue_families stack physical_device).graphics_family.value
      = (find_queue_families stack physical_device).present_family.value
  · simp only [create_swap_chain, query_swap_chain_details, hr]
    rw [if_neg (fun hne => hne hgp)]
    exact ⟨_, rfl, rfl, rfl, fun _ => rfl, fun hne => absurd hgp hne⟩
  · simp only [create_swap_chain, query_swap_chain_details, hr]
    rw [if_pos hgp]
    exact ⟨_, rfl, rfl, rfl, fun heq => absurd heq hgp, fun _ => ⟨rfl, rfl, rfl⟩⟩

/-- The two paths of `choose_swap_chain_extent`, told apart by the width of the
current extent: with width `UINT_MAX` the framebuffer size, converted to
`uint32_t`, is clamped on each axis; with any other width the current extent is
returned. -/
theorem choose_swap_chain_extent_by_width (capabilities : VkSurfaceCapabilitiesKHR)
    (framebuffer : Int × Int) :
    (capabilities.currentExtent.width = UINT_MAX →
        choose_swap_chain_extent capabilities framebuffer
          = { width := clamp (to_uint32 framebuffer.1) capabilities.minImageExtent.width
                capabilities.maxImageExtent.width,
              height := clamp (to_uint32 framebuffer.2) capabilities.minImageExtent.height
                capabilities.maxImageExtent.height }
        ∧ (capabilities.minImageExtent.width ≤ capabilities.maxImageExtent.width →
            capabilities.minImageExtent.width
                ≤ (choose_swap_chain_extent capabilities framebuffer).width
            ∧ (choose_swap_chain_extent capabilities framebuffer).width
                ≤ capabilities.maxImageExtent.width)
        ∧ (capabilities.minImageExtent.height ≤ capabilities.maxImageExtent.height →
            capabilities.minImageExtent.height
                ≤ (choose_swap_chain_extent capabilities framebuffer).height
            ∧ (choose_swap_chain_extent capabilities framebuffer).height
                ≤ capabilities.maxImageExtent.height)
        ∧ (0 ≤ framebuffer.1 → framebuffer.1 < 4294967296 →
            capabilities.minImageExtent.width ≤ framebuffer.1.toNat →
            framebuffer.1.toNat ≤ capabilities.maxImageExtent.width →
            (choose_swap_chain_extent capabilities framebuffer).width = framebuffer.1.toNat)
        ∧ (0 ≤ framebuffer.2 → framebuffer.2 < 4294967296 →
            capabilities.minImageExtent.height ≤ framebuffer.2.toNat →
            framebuffer.2.toNat ≤ capabilities.maxImageExtent.height →
            (choose_swap_chain_extent capabilities framebuffer).height = framebuffer.2.toNat))
    ∧ (capabilities.currentExtent.width ≠ UINT_MAX →
        choose_swap_chain_extent capabilities framebuffer = capabilities.currentExtent) := by
  constructor
  · intro hw
    have hres : choose_swap_chain_extent capabilities framebuffer
        = { width := clamp (to_uint32 framebuffer.1) capabilities.minImageExtent.width
              capabilities.maxImageExtent.width,
            height := clamp (to_uint32 framebuffer.2) capabilities.minImageExtent.height
              capabilities.maxImageExtent.height } := by
      simp [choose_swap_chain_extent, hw]
    refine ⟨hres, ?_, ?_, ?_, ?_⟩
    · intro hle
      rw [hres]
      exact clamp_in_range _ _ _ hle
    · intro hle
      rw [hres]
      exact clamp_in_range _ _ _ hle
    · intro h0 h1 hlo hhi
      rw [hres]
      show clamp (to_uint32 framebuffer.1) _ _ = _
      rw [to_uint32_of_nonneg _ h0 h1]
      exact clamp_of_in_range _ _ _ hlo hhi
    · intro h0 h1 hlo hhi
      rw [hres]
      show clamp (to_uint32 framebuffer.2) _ _ = _
      rw [to_uint32_of_nonneg _ h0 h1]
      exact clamp_of_in_range _ _ _ hlo hhi
  · intro hw
    simp [choose_swap_chain_extent, hw]

/-- C7: for surface capabilities in which a current-extent width of `UINT_MAX`
occurs only in the undefined sentinel (what a surface reports is the sentinel or a
real extent): if the current extent is the undefined sentinel, the result's width
and height are the framebuffer width and height (as `uint32_t`, the value itself
for a non-negative size) each clamped on its own axis between the minimum and the
maximum image extent, so that with `min ≤ max` on an axis the result lies in that
range and equals the framebuffer size when that already lies in range; otherwise
the result is the current extent unchanged.  For the sentinel, framebuffer
(1000, 1000), minimum (1, 1) and maximum (512, 512) the result is (512, 512). -/
theorem choose_swap_chain_extent_sentinel (capabilities : VkSurfaceCapabilitiesKHR)
    (framebuffer : Int × Int)
    (hsent : capabilities.currentExtent.width = UINT_MAX →
      capabilities.currentExtent = undefined_extent) :
    (capabilities.currentExtent = undefined_extent →
        choose_swap_chain_extent capabilities framebuffer
          = { width := clamp (to_uint32 framebuffer.1) capabilities.minImageExtent.width
                capabilities.maxImageExtent.width,
              height := clamp (to_uint32 framebuffer.2) capabilities.minImageExtent.height
                capabilities.maxImageExtent.height }
        ∧ (0 ≤ framebuffer.1 → framebuffer.1 < 4294967296 →
            to_uint32 framebuffer.1 = framebuffer.1.toNat)
        ∧ (0 ≤ framebuffer.2 → framebuffer.2 < 4294967296 →
            to_uint32 framebuffer.2 = framebuffer.2.toNat)
        ∧ (capabilities.minImageExtent.width ≤ capabilities.maxImageExtent.width →
            capabilities.minImageExtent.width
                ≤ (choose_swap_chain_extent capabilities framebuffer).width
            ∧ (choose_swap_chain_extent capabilities framebuffer).width
                ≤ capabilities.maxImageExtent.width)
        ∧ (capabilities.minImageExtent.height ≤ capabilities.maxImageExtent.height →
            capabilities.minImageExtent.height
                ≤ (choose_swap_chain_extent capabilities framebuffer).height
            ∧ (choose_swap_chain_extent capabilities framebuffer).height
                ≤ capabilities.maxImageExtent.height)
        ∧ (0 ≤ framebuffer.1 → framebuffer.1 < 4294967296 →
            capabilities.minImageExtent.width ≤ framebuffer.1.toNat →
            framebuffer.1.toNat ≤ capabilities.maxImageExtent.width →
            (choose_swap_chain_extent capabilities framebuffer).width = framebuffer.1.toNat)
        ∧ (0 ≤ framebuffer.2 → framebuffer.2 < 4294967296 →
            capabilities.minImageExtent.height ≤ framebuffer.2.toNat →
            framebuffer.2.toNat ≤ capabilities.maxImageExtent.height →
            (choose_swap_chain_extent capabilities framebuffer).height = framebuffer.2.toNat))
    ∧ (capabilities.currentExtent ≠ undefined_extent →
        choose_swap_chain_extent capabilities framebuffer = capabilities.currentExtent)
    ∧ choose_swap_chain_extent sentinel_capabilities (1000, 1000)
        = { width := 512, height := 512 } := by
  refine ⟨?_, ?_, by decide⟩
  · intro hundef
    have hw : capabilities.currentExtent.width = UINT_MAX := by
      rw [hundef]
      rfl
    obtain ⟨hres, hrw, hrh, hew, heh⟩ :=
      (choose_swap_chain_extent_by_width capabilities framebuffer).1 hw
    exact ⟨hres, to_uint32_of_nonneg _, to_uint32_of_nonneg _, hrw, hrh, hew, heh⟩
  · intro hdef
    exact (choose_swap_chain_extent_by_width capabilities framebuffer).2
      (fun hw => hdef (hsent hw))

/-- C7 at the sentinel current extent with framebuffer (300, 1000), minimum (1, 1)
and maximum (512, 512), where the result is (300, 512); and at a current extent of
(512, 512), where the result is that extent. -/
theorem choose_swap_chain_extent_sentinel_witness :
    choose_swap_chain_extent sentinel_capabilities (300, 1000)
        = { width := 300, height := 512 }
    ∧ choose_swap_chain_extent example_capabilities (1000, 1000)
        = example_capabilities.currentExtent :=
  ⟨((choose_swap_chain_extent_sentinel sentinel_capabilities (300, 1000)
      (fun _ => rfl)).1 rfl).1.trans (by decide),
   (choose_swap_chain_extent_sentinel example_capabilities (1000, 1000)
      (fun hw => absurd hw (by decide))).2.1 (by decide)⟩

/-- C8 as stated fails at `minImageCount = 4294967295`, `maxImageCount = 0`: the
32-bit sum wraps and the count requested is 0, not `minImageCount + 1`. -/
theorem create_swap_chain_image_count_counterexample :
    wrapping_device.capabilities.minImageCount < 4294967296
    ∧ wrapping_device.capabilities.maxImageCount = 0
    ∧ (create_swap_chain unassigned_indices wrapping_device (512, 512)).map
        (fun ci => ci.minImageCount) = some 0
    ∧ (create_swap_chain unassigned_indices wrapping_device (512, 512)).map
        (fun ci => ci.minImageCount) ≠ some (wrapping_device.capabilities.minImageCount + 1) := by
  decide

/-- C8 amended: `create_swap_chain` requests `(minImageCount + 1) mod 2^32` images
when `maxImageCount` is 0 or that value does not exceed `maxImageCount`, and
`maxImageCount` otherwise; hence for `minImageCount < 2^32 - 1` it requests
`minImageCount + 1` when `maxImageCount` is 0 and
`min (minImageCount + 1) maxImageCount` when `maxImageCount` is nonzero. -/
theorem create_swap_chain_image_count (stack : queue_family_indices)
    (physical_device : VkPhysicalDevice) (framebuffer : Int × Int)
    (h : physical_device.formats ≠ []) :
    ∃ ci, create_swap_chain stack physical_device framebuffer = some ci
      ∧ ci.minImageCount
          = (if physical_device.capabilities.maxImageCount = 0
                ∨ (physical_device.capabilities.minImageCount + 1) % 4294967296
                    ≤ physical_device.capabilities.maxImageCount
              then (physical_device.capabilities.minImageCount + 1) % 4294967296
              else physical_device.capabilities.maxImageCount)
      ∧ (physical_device.capabilities.minImageCount + 1 < 4294967296 →
          physical_device.capabilities.maxImageCount = 0 →
          ci.minImageCount = physical_device.capabilities.minImageCount + 1)
      ∧ (physical_device.capabilities.minImageCount + 1 < 4294967296 →
          physical_device.capabilities.maxImageCount ≠ 0 →
          ci.minImageCount = Nat.min (physical_device.capabilities.minImageCount + 1)
            physical_device.capabilities.maxImageCount) := by
  obtain ⟨ci, hci, hcount, _⟩ := create_swap_chain_fields stack physical_device framebuffer h
  refine ⟨ci, hci, ?_, ?_, ?_⟩
  · rw [hcount]
    simp only [swap_chain_image_count]
    split_ifs <;> omega
  · intro hlt hmax
    rw [hcount]
    simp only [swap_chain_image_count]
    rw [Nat.mod_eq_of_lt hlt]
    split_ifs <;> omega
  · intro hlt hmax
    rw [hcount]
    simp only [swap_chain_image_count]
    rw [Nat.mod_eq_of_lt hlt]
    have hmin : Nat.min (physical_device.capabilities.minImageCount + 1)
        physical_device.capabilities.maxImageCount
        = min (physical_device.capabilities.minImageCount + 1)
            physical_device.capabilities.maxImageCount := rfl
    rw [hmin]
    split_ifs <;> omega

/-- C8 amended, at (min 2, max 0), which requests 3 images, and at (min 2, max 2),
which requests 2. -/
theorem create_swap_chain_image_count_witness :
    (∃ ci, create_swap_chain unassigned_indices discrete_device (512, 512) = some ci
      ∧ ci.minImageCount = 3)
    ∧ (∃ ci, create_swap_chain unassigned_indices two_image_device (512, 512) = some ci
      ∧ ci.minImageCount = 2) := by
  constructor
  · obtain ⟨ci, hci, _, hzero, _⟩ :=
      create_swap_chain_image_count unassigned_indices discrete_device (512, 512) (by decide)
    exact ⟨ci, hci, hzero (by decide) (by decide)⟩
  · obtain ⟨ci, hci, _, _, hmax⟩ :=
      create_swap_chain_image_count unassigned_indices two_image_device (512, 512) (by decide)
    exact ⟨ci, hci, (hmax (by decide) (by decide)).trans (by decide)⟩

/-- C9: the create-info `create_swap_chain` passes has sharing mode EXCLUSIVE when
the graphics and present family indices are equal, and when they differ has
sharing mode CONCURRENT, a queue-family index count of 2 and the index list
graphics index, present index. -/
theorem create_swap_chain_sharing_mode (stack : queue_family_indices)
    (physical_device : VkPhysicalDevice) (framebuffer : Int × Int)
    (h : physical_device.formats ≠ []) :
    ∃ ci, create_swap_chain stack physical_device framebuffer = some ci
      ∧ ((find_queue_families stack physical_device).graphics_family.value
            = (find_queue_families stack physical_device).present_family.value →
          ci.imageSharingMode = VK_SHARING_MODE_EXCLUSIVE)
      ∧ ((find_queue_families stack physical_device).graphics_family.value
            ≠ (find_queue_families stack physical_device).present_family.value →
          ci.imageSharingMode = VK_SHARING_MODE_CONCURRENT
          ∧ ci.queueFamilyIndexCount = 2
          ∧ ci.pQueueFamilyIndices
              = some [(find_queue_families stack physical_device).graphics_family.value,
                      (find_queue_families stack physical_device).present_family.value]) := by
  obtain ⟨ci, hci, _, _, hexcl, hconc⟩ :=
    create_swap_chain_fields stack physical_device framebuffer h
  exact ⟨ci, hci, hexcl, hconc⟩

/-- C9 at `split_family_device` (graphics family 0, present family 1), which gets
CONCURRENT with indices `[0, 1]`, and at `discrete_device` (both family 0), which
gets EXCLUSIVE. -/
theorem create_swap_chain_sharing_mode_witness :
    (∃ ci, create_swap_chain unassigned_indices split_family_device (512, 512) = some ci
      ∧ ci.imageSharingMode = VK_SHARING_MODE_CONCURRENT
      ∧ ci.queueFamilyIndexCount = 2
      ∧ ci.pQueueFamilyIndices = some [0, 1])
    ∧ (∃ ci, create_swap_chain unassigned_indices discrete_device (512, 512) = some ci
      ∧ ci.imageSharingMode = VK_SHARING_MODE_EXCLUSIVE) := by
  constructor
  · obtain ⟨ci, hci, _, hconc⟩ :=
      create_swap_chain_sharing_mode unassigned_indices split_family_device (512, 512)
        (by decide)
    exact ⟨ci, hci, (hconc (by decide)).1, (hconc (by decide)).2.1,
      (hconc (by decide)).2.2.trans (by decide)⟩
  · obtain ⟨ci, hci, hexcl, _⟩ :=
      create_swap_chain_sharing_mode unassigned_indices discrete_device (512, 512)
        (by decide)
    exact ⟨ci, hci, hexcl (by decide)⟩

/-! ### Logical device -/

/-- C10: the queue-creation requests `create_logical_device` passes to
`vkCreateDevice` are one request (for the common family) when the graphics and
present family indices coincide and two (graphics, then present) when they
differ; their family indices are pairwise distinct and each asks for one queue at
priority 1.0. -/
theorem create_logical_device_queue_requests (stack : queue_family_indices)
    (physical_device : VkPhysicalDevice) :
    ((find_queue_families stack physical_device).graphics_family.value
          = (find_queue_families stack physical_device).present_family.value →
        (queue_requests (create_logical_device stack physical_device)).length = 1
        ∧ (queue_requests (create_logical_device stack physical_device)).map
            (fun q => q.queueFamilyIndex)
            = [(find_queue_families stack physical_device).graphics_family.value])
    ∧ ((find_queue_families stack physical_device).graphics_family.value
          ≠ (find_queue_families stack physical_device).present_family.value →
        (queue_requests (create_logical_device stack physical_device)).length = 2
        ∧ (queue_requests (create_logical_device stack physical_device)).map
            (fun q => q.queueFamilyIndex)
            = [(find_queue_families stack physical_device).graphics_family.value,
               (find_queue_families stack physical_device).present_family.value])
    ∧ ((queue_requests (create_logical_device stack physical_device)).map
          (fun q => q.queueFamilyIndex)).Nodup
    ∧ (∀ q ∈ queue_requests (create_logical_device stack physical_device),
        q.queueCount = 1 ∧ q.pQueuePriorities = [1]) := by
  by_cases hgp : (find_queue_families stack physical_device).graphics_family.value
      = (find_queue_families stack physical_device).present_family.value
  · have hreq : queue_requests (create_logical_device stack physical_device)
        = [{ queueFamilyIndex :=
               (find_queue_families stack physical_device).graphics_family.value,
             queueCount := 1, pQueuePriorities := [1] }] := by
      simp [queue_requests, create_logical_device, device_create_info_of, hgp]
    rw [hreq]
    refine ⟨fun _ => ⟨rfl, rfl⟩, fun hne => absurd hgp hne, by simp, ?_⟩
    intro q hq
    rw [List.mem_singleton.mp hq]
    exact ⟨rfl, rfl⟩
  · have hreq : queue_requests (create_logical_device stack physical_device)
        = [{ queueFamilyIndex :=
               (find_queue_families stack physical_device).graphics_family.value,
             queueCount := 1, pQueuePriorities := [1] },
           { queueFamilyIndex :=
               (find_queue_families stack physical_device).present_family.value,
             queueCount := 1, pQueuePriorities := [1] }] := by
      simp [queue_requests, create_logical_device, device_create_info_of, hgp]
    rw [hreq]
    refine ⟨fun heq => absurd heq hgp, fun _ => ⟨rfl, rfl⟩, by simp [hgp], ?_⟩
    intro q hq
    simp only [List.mem_cons, List.mem_singleton, List.not_mem_nil, or_false] at hq
    rcases hq with rfl | rfl <;> exact ⟨rfl, rfl⟩

/-- C10 at `discrete_device` (one request, family 0) and at `split_family_device`
(two requests, families 0 and 1). -/
theorem create_logical_device_queue_requests_witness :
    queue_requests (create_logical_device unassigned_indices discrete_device)
        = [{ queueFamilyIndex := 0, queueCount := 1, pQueuePriorities := [1] }]
    ∧ (queue_requests (create_logical_device unassigned_indices split_family_device)).map
        (fun q => q.queueFamilyIndex) = [0, 1] :=
  ⟨by decide,
   ((create_logical_device_queue_requests unassigned_indices split_family_device).2.1
      (by decide)).2.trans (by decide)⟩

/-! ### Initialisation sequence -/

theorem init_vulkan_eq_run_steps (status : Step → VkResult) :
    init_vulkan status = run_steps status init_steps := by
  by_cases h1 : status Step.create_instance = VK_SUCCESS
  swap
  · simp [init_vulkan, init_steps, run_steps, diagnostic, h1]
  by_cases h2 : status Step.create_surface = VK_SUCCESS
  swap
  · simp [init_vulkan, init_steps, run_steps, diagnostic, h1, h2]
  by_cases h3 : status Step.init_device = VK_SUCCESS
  swap
  · simp [init_vulkan, init_steps, run_steps, diagnostic, h1, h2, h3]
  by_cases h4 : status Step.create_logical_device = VK_SUCCESS
  swap
  · simp [init_vulkan, init_steps, run_steps, diagnostic, h1, h2, h3, h4]
  by_cases h5 : status Step.create_swap_chain = VK_SUCCESS
  swap
  · simp [init_vulkan, init_steps, run_steps, diagnostic, h1, h2, h3, h4, h5]
  by_cases h6 : status Step.create_image_view = VK_SUCCESS
  swap
  · simp [init_vulkan, init_steps, run_steps, diagnostic, h1, h2, h3, h4, h5, h6]
  by_cases h7 : status Step.create_render_pass = VK_SUCCESS
  swap
  · simp [init_vulkan, init_steps, run_steps, diagnostic, h1, h2, h3, h4, h5, h6, h7]
  by_cases h8 : status Step.create_graphics_pipeline = VK_SUCCESS
  swap
  · simp [init_vulkan, init_steps, run_steps, diagnostic, h1, h2, h3, h4, h5, h6, h7, h8]
  by_cases h9 : status Step.create_frame_buffer = VK_SUCCESS
  swap
  · simp [init_vulkan, init_steps, run_steps, diagnostic, h1, h2, h3, h4, h5, h6, h7, h8,
      h9]
  by_cases h10 : status Step.create_command_pool = VK_SUCCESS
  swap
  · simp [init_vulkan, init_steps, run_steps, diagnostic, h1, h2, h3, h4, h5, h6, h7, h8,
      h9, h10]
  by_cases h11 : status Step.create_command_buffer = VK_SUCCESS
  swap
  · simp [init_vulkan, init_steps, run_steps, diagnostic, h1, h2, h3, h4, h5, h6, h7, h8,
      h9, h10, h11]
  by_cases h12 : status Step.create_sync_objects = VK_SUCCESS
  swap
  · simp [init_vulkan, init_steps, run_steps, diagnostic, h1, h2, h3, h4, h5, h6, h7, h8,
      h9, h10, h11, h12]
  simp [init_vulkan, init_steps, run_steps, h1, h2, h3, h4, h5, h6, h7, h8, h9, h10, h11,
    h12]

theorem run_steps_first_failure (status : Step → VkResult) (s : Step) (post : List Step)
    (hs : status s ≠ VK_SUCCESS) :
    ∀ pre : List Step, (∀ x ∈ pre, status x = VK_SUCCESS) →
      run_steps status (pre ++ s :: post)
        = (status s, (pre ++ [s]).map Op.call ++ [Op.puts (diagnostic s)]) := by
  intro pre
  induction pre with
  | nil =>
    intro _
    simp [run_steps, hs]
  | cons a pre ih =>
    intro hpre
    have ha : status a = VK_SUCCESS := hpre a (List.mem_cons_self a pre)
    have hrest := ih (fun x hx => hpre x (List.mem_cons_of_mem a hx))
    simp [run_steps, ha, hrest]

theorem run_steps_all_succeed (status : Step → VkResult) :
    ∀ steps : List Step, (∀ x ∈ steps, status x = VK_SUCCESS) →
      run_steps status steps = (VK_SUCCESS, steps.map Op.call) := by
  intro steps
  induction steps with
  | nil => intro _; rfl
  | cons a rest ih =>
    intro hall
    have ha : status a = VK_SUCCESS := hall a (List.mem_cons_self a rest)
    have hrest := ih (fun x hx => hall x (List.mem_cons_of_mem a hx))
    simp [run_steps, ha, hrest]

theorem main_loop_closes (should_close : Nat → Bool) (acquired : Nat → Nat)
    (swap_chain_extent : VkExtent2D) :
    ∀ (k fuel start : Nat), should_close (start + k) = true →
      (∀ j, j < k → should_close (start + j) = false) → k < fuel →
      main_loop should_close acquired swap_chain_extent fuel start
        = some (loop_trace acquired swap_chain_extent start k) := by
  intro k
  induction k with
  | zero =>
    intro fuel start hclose _ hfuel
    cases fuel with
    | zero => omega
    | succ fuel =>
      have h0 : should_close start = true := by simpa using hclose
      simp [main_loop, loop_trace, h0]
  | succ k ih =>
    intro fuel start hclose hopen hfuel
    cases fuel with
    | zero => omega
    | succ fuel =>
      have h0 : should_close start = false := by simpa using hopen 0 (by omega)
      have hrest := ih fuel (start + 1)
        (by rw [show start + 1 + k = start + (k + 1) by omega]; exact hclose)
        (fun j hj => by
          rw [show start + 1 + j = start + (j + 1) by omega]
          exact hopen (j + 1) (by omega))
        (by omega)
      simp [main_loop, loop_trace, h0, hrest]

theorem loop_trace_no_puts (acquired : Nat → Nat) (swap_chain_extent : VkExtent2D)
    (line : String) :
    ∀ (count start : Nat), Op.puts line ∉ loop_trace acquired swap_chain_extent start count := by
  intro count
  induction count with
  | zero => intro start; simp [loop_trace]
  | succ count ih =>
    intro start
    simp [loop_trace, draw_frame, record_command_buffer, ih (start + 1)]

theorem cleanup_no_puts (swap_chain_images_count : Nat) (line : String) :
    Op.puts line ∉ cleanup swap_chain_images_count := by
  simp [cleanup]

/-- C11: whatever statuses the twelve functions return, `init_vulkan` calls them in
their fixed order up to the first one whose status is not `VK_SUCCESS`, calls none
after it, prints the one diagnostic line that names it, and `main` exits with
code 1; when all twelve succeed nothing is printed and, once the window is closed
and the loop ends, `main` exits with code 0. -/
theorem init_vulkan_stops_at_first_failure (status : Step → VkResult) :
    (∀ pre s post, init_steps = pre ++ s :: post →
        (∀ x ∈ pre, status x = VK_SUCCESS) → status s ≠ VK_SUCCESS →
        init_vulkan status
          = (status s, (pre ++ [s]).map Op.call ++ [Op.puts (diagnostic s)])
        ∧ ∀ n extent should_close acquired fuel,
            main status n extent should_close acquired fuel
              = some (1, Op.init_window ::
                  ((pre ++ [s]).map Op.call ++ [Op.puts (diagnostic s)])))
    ∧ ((∀ s, status s = VK_SUCCESS) →
        init_vulkan status = (VK_SUCCESS, init_steps.map Op.call)
        ∧ ∀ n extent should_close acquired k, should_close k = true →
            (∀ j, j < k → should_close j = false) → ∀ fuel, k < fuel →
            ∃ trace, main status n extent should_close acquired fuel = some (0, trace)
              ∧ ∀ line, Op.puts line ∉ trace) := by
  constructor
  · intro pre s post hsplit hpre hs
    have hinit : init_vulkan status
        = (status s, (pre ++ [s]).map Op.call ++ [Op.puts (diagnostic s)]) := by
      rw [init_vulkan_eq_run_steps, hsplit]
      exact run_steps_first_failure status s post hs pre hpre
    refine ⟨hinit, ?_⟩
    intro n extent should_close acquired fuel
    simp only [main, hinit]
    rw [if_pos hs]
  · intro hall
    have hinit : init_vulkan status = (VK_SUCCESS, init_steps.map Op.call) := by
      rw [init_vulkan_eq_run_steps]
      exact run_steps_all_succeed status init_steps (fun x _ => hall x)
    refine ⟨hinit, ?_⟩
    intro n extent should_close acquired k hclose hopen fuel hfuel
    have hloop := main_loop_closes should_close acquired extent k fuel 0
      (by simpa using hclose) (fun j hj => by simpa using hopen j hj) hfuel
    refine ⟨_, by simp only [main, hinit, hloop]; rfl, ?_⟩
    intro line hmem
    simp only [List.mem_cons, List.mem_append] at hmem
    rcases hmem with ((h | h) | h) | h
    · exact Op.noConfusion h
    · simp [init_steps] at h
    · exact loop_trace_no_puts acquired extent line k 0 h
    · exact cleanup_no_puts n line h

/-- C11 with `create_swap_chain` the first to fail: five functions are called, the
line naming the swap chain is printed and the exit code is 1; and with all twelve
succeeding and the window closed at once, the exit code is 0. -/
theorem init_vulkan_stops_at_first_failure_witness :
    (main swap_chain_fails 2 { width := 512, height := 512 } (fun _ => true) (fun _ => 0) 1
      = some (1,
          [ Op.init_window, Op.call Step.create_instance, Op.call Step.create_surface,
            Op.call Step.init_device, Op.call Step.create_logical_device,
            Op.call Step.create_swap_chain, Op.puts "Failed to create swap chain" ]))
    ∧ (∃ trace,
        main all_succeed 2 { width := 512, height := 512 } (fun _ => true) (fun _ => 0) 1
          = some (0, trace)
        ∧ ∀ line, Op.puts line ∉ trace) :=
  ⟨((init_vulkan_stops_at_first_failure swap_chain_fails).1
      [Step.create_instance, Step.create_surface, Step.init_device,
        Step.create_logical_device]
      Step.create_swap_chain
      [Step.create_image_view, Step.create_render_pass, Step.create_graphics_pipeline,
        Step.create_frame_buffer, Step.create_command_pool, Step.create_command_buffer,
        Step.create_sync_objects]
      rfl (by decide) (by decide)).2 2 { width := 512, height := 512 } (fun _ => true)
      (fun _ => 0) 1,
   ((init_vulkan_stops_at_first_failure all_succeed).2 (fun _ => rfl)).2 2
      { width := 512, height := 512 } (fun _ => true) (fun _ => 0) 0 rfl
      (fun j hj => absurd hj (Nat.not_lt_zero j)) 1 (by decide)⟩

/-! ### Teardown -/

theorem mem_destroyed_objects (object : GpuObject) :
    ∀ ops : List Op, object ∈ destroyed_objects ops ↔ Op.destroy object ∈ ops := by
  intro ops
  induction ops with
  | nil => simp [destroyed_objects]
  | cons op rest ih =>
    cases op <;> simp [destroyed_objects, ih]

theorem mem_created_objects_of_fence (fence : GpuObject) (flags : Nat) :
    ∀ ops : List Op, Op.vkCreateFence fence flags VK_SUCCESS ∈ ops →
      fence ∈ created_objects ops := by
  intro ops
  induction ops with
  | nil => intro h; simp at h
  | cons op rest ih =>
    intro h
    rcases List.mem_cons.mp h with h | h
    · subst h
      simp [created_objects]
    · have hrest := ih h
      cases op <;> simp [created_objects, hrest]
      all_goals split_ifs <;> simp [hrest]

theorem init_vulkan_all_succeed :
    init_vulkan all_succeed = (VK_SUCCESS, init_steps.map Op.call) := by
  decide

/-- C12: after a fully successful `init_vulkan` (with any number of swapchain
images) the in-flight fence is among the objects created and alive, and `cleanup`
never destroys it.  With two swapchain images, what `cleanup` does destroy is,
item by item, the reverse of the creation sequence without the fence (and without
the command buffer, which goes with its pool). -/
theorem cleanup_never_destroys_fence (swap_chain_images_count : Nat) :
    GpuObject.in_flight_fence
        ∈ created_objects (expand_calls swap_chain_images_count (init_vulkan all_succeed).2)
    ∧ GpuObject.in_flight_fence
        ∉ destroyed_objects (expand_calls swap_chain_images_count (init_vulkan all_succeed).2)
    ∧ GpuObject.in_flight_fence ∉ destroyed_objects (cleanup swap_chain_images_count)
    ∧ ((destroyed_objects (cleanup 2)).map object_group).dedup
        = (((((created_objects (expand_calls 2 (init_vulkan all_succeed).2)).filter
                (fun object => decide (object ∉
                  destroyed_objects (expand_calls 2 (init_vulkan all_succeed).2)))).map
              object_group).dedup.reverse).erase GpuObject.in_flight_fence).erase
            GpuObject.command_buffer := by
  refine ⟨?_, ?_, ?_, by decide⟩
  · apply mem_created_objects_of_fence GpuObject.in_flight_fence VK_FENCE_CREATE_SIGNALED_BIT
    rw [init_vulkan_all_succeed]
    simp [init_steps, expand_calls, step_ops, create_sync_objects]
  · rw [mem_destroyed_objects, init_vulkan_all_succeed]
    simp [init_steps, expand_calls, step_ops, create_sync_objects]
  · rw [mem_destroyed_objects]
    simp [cleanup]

/-! ### Frame loop -/

theorem fence_run_append :
    ∀ (front back : List Op) (signalled : Bool),
      fence_run signalled (front ++ back)
        = (fence_run signalled front).bind (fun after => fence_run after back) := by
  intro front
  induction front with
  | nil => intro back signalled; simp [fence_run]
  | cons op rest ih =>
    intro back signalled
    cases op
    case vkWaitForFences fence =>
      simp only [List.cons_append, fence_run]
      split_ifs
      · rfl
      · exact ih back signalled
    all_goals exact ih back _

theorem fence_run_draw_frame (image_index : Nat) (swap_chain_extent : VkExtent2D) :
    fence_run true (draw_frame image_index swap_chain_extent) = some true := by
  simp [draw_frame, record_command_buffer, fence_run, fence_step]

theorem fence_run_loop_trace (acquired : Nat → Nat) (swap_chain_extent : VkExtent2D) :
    ∀ (count start : Nat),
      fence_run true (loop_trace acquired swap_chain_extent start count) = some true := by
  intro count
  induction count with
  | zero => intro start; simp [loop_trace, fence_run]
  | succ count ih =>
    intro start
    have hpoll : fence_run true (loop_trace acquired swap_chain_extent start (count + 1))
        = fence_run true (draw_frame (acquired start) swap_chain_extent
            ++ loop_trace acquired swap_chain_extent (start + 1) count) := rfl
    rw [hpoll, fence_run_append, fence_run_draw_frame]
    exact ih (start + 1)

/-- C13: `draw_frame`, for every acquired image index `i`, is the sequence wait on
the in-flight fence, reset it, acquire (signalling image-available), reset the
command buffer, begin, begin render pass on framebuffer `i`, bind pipeline, set
viewport and scissor to the swapchain extent, draw 3 vertices 1 instance from
vertex 0 instance 0, end render pass, end, submit on the graphics queue (waiting
on image-available, signalling render-finished and the fence), present index `i`
on the present queue waiting on render-finished; and a loop that runs `k`
iterations before the window closes makes exactly these calls in each of them,
after `glfwPollEvents`. -/
theorem draw_frame_sequence (acquired : Nat → Nat) (swap_chain_extent : VkExtent2D) :
    (∀ i, draw_frame i swap_chain_extent
      = [ Op.vkWaitForFences GpuObject.in_flight_fence,
          Op.vkResetFences GpuObject.in_flight_fence,
          Op.vkAcquireNextImageKHR GpuObject.image_available_semaphore none i,
          Op.vkResetCommandBuffer GpuObject.command_buffer,
          Op.vkBeginCommandBuffer GpuObject.command_buffer,
          Op.vkCmdBeginRenderPass GpuObject.render_pass (GpuObject.swap_chain_frame_buffer i)
            swap_chain_extent,
          Op.vkCmdBindPipeline GpuObject.pipeline,
          Op.vkCmdSetViewport swap_chain_extent.width swap_chain_extent.height,
          Op.vkCmdSetScissor swap_chain_extent,
          Op.vkCmdDraw 3 1 0 0,
          Op.vkCmdEndRenderPass,
          Op.vkEndCommandBuffer GpuObject.command_buffer,
          Op.vkQueueSubmit Queue.graphics_queue [GpuObject.image_available_semaphore]
            [GpuObject.command_buffer] [GpuObject.render_finished_semaphore]
            (some GpuObject.in_flight_fence),
          Op.vkQueuePresentKHR Queue.present_queue [GpuObject.render_finished_semaphore] i ])
    ∧ (∀ should_close k, should_close k = true → (∀ j, j < k → should_close j = false) →
        ∀ fuel, k < fuel →
          main_loop should_close acquired swap_chain_extent fuel 0
            = some (loop_trace acquired swap_chain_extent 0 k))
    ∧ (∀ start, loop_trace acquired swap_chain_extent start 0 = [])
    ∧ (∀ start count, loop_trace acquired swap_chain_extent start (count + 1)
        = Op.glfwPollEvents :: (draw_frame (acquired start) swap_chain_extent
            ++ loop_trace acquired swap_chain_extent (start + 1) count)) := by
  refine ⟨fun _ => rfl, ?_, fun _ => rfl, fun _ _ => rfl⟩
  intro should_close k hclose hopen fuel hfuel
  exact main_loop_closes should_close acquired swap_chain_extent k fuel 0
    (by simpa using hclose) (fun j hj => by simpa using hopen j hj) hfuel

/-- C13 on a loop of two iterations that acquire images 1 and 0: the second
iteration records on framebuffer 0 and presents index 0. -/
theorem draw_frame_sequence_witness :
    ∃ first, main_loop (fun k => decide (k = 2)) (fun k => 1 - k)
        { width := 512, height := 512 } 3 0
      = some (first ++ Op.glfwPollEvents :: draw_frame 0 { width := 512, height := 512 })
      ∧ first = Op.glfwPollEvents :: draw_frame 1 { width := 512, height := 512 } :=
  ⟨_, ((draw_frame_sequence (fun k => 1 - k) { width := 512, height := 512 }).2.1
      (fun k => decide (k = 2)) 2 (by decide)
      (fun j hj => by
        have hne : j ≠ 2 := by omega
        simp [hne]) 3 (by decide)).trans (by decide), rfl⟩

/-- C14: after a successful `create_sync_objects` the in-flight fence is signalled;
every `draw_frame` starts with the wait and the reset, and what follows the reset
contains no further reset and a submit naming the fence, which leaves the fence
signalled again; so along creation followed by any number of loop iterations no
wait is reached with the fence unsignalled. -/
theorem fence_signalled_at_every_wait (image_available render_finished in_flight : VkResult)
    (h : (create_sync_objects image_available render_finished in_flight).1 = VK_SUCCESS) :
    fence_run false (create_sync_objects image_available render_finished in_flight).2
        = some true
    ∧ (∀ i extent, ∃ rest,
        draw_frame i extent
          = Op.vkWaitForFences GpuObject.in_flight_fence ::
              Op.vkResetFences GpuObject.in_flight_fence :: rest
        ∧ fence_run true [Op.vkWaitForFences GpuObject.in_flight_fence,
            Op.vkResetFences GpuObject.in_flight_fence] = some false
        ∧ Op.vkResetFences GpuObject.in_flight_fence ∉ rest
        ∧ Op.vkQueueSubmit Queue.graphics_queue [GpuObject.image_available_semaphore]
            [GpuObject.command_buffer] [GpuObject.render_finished_semaphore]
            (some GpuObject.in_flight_fence) ∈ rest
        ∧ fence_run false rest = some true)
    ∧ (∀ acquired extent count,
        fence_run false
            ((create_sync_objects image_available render_finished in_flight).2
              ++ loop_trace acquired extent 0 count)
          = some true) := by
  have h1 : image_available = VK_SUCCESS := by
    by_contra hne
    simp [create_sync_objects, hne] at h
  have h2 : render_finished = VK_SUCCESS := by
    by_contra hne
    simp [create_sync_objects, h1, hne] at h
  have h3 : in_flight = VK_SUCCESS := by
    simpa [create_sync_objects, h1, h2] using h
  subst h1 h2 h3
  have hcreate : fence_run false (create_sync_objects VK_SUCCESS VK_SUCCESS VK_SUCCESS).2
      = some true := by decide
  refine ⟨hcreate, ?_, ?_⟩
  · intro i extent
    refine ⟨_, rfl, by decide, ?_, ?_, ?_⟩
    · simp [record_command_buffer]
    · simp [record_command_buffer]
    · simp [record_command_buffer, fence_run, fence_step]
  · intro acquired extent count
    rw [fence_run_append, hcreate]
    exact fence_run_loop_trace acquired extent count 0

/-- C14 with all three creations succeeding and three loop iterations. -/
theorem fence_signalled_at_every_wait_witness :
    fence_run false
        ((create_sync_objects VK_SUCCESS VK_SUCCESS VK_SUCCESS).2
          ++ loop_trace (fun k => k % 2) { width := 512, height := 512 } 0 3)
      = some true :=
  (fence_signalled_at_every_wait VK_SUCCESS VK_SUCCESS VK_SUCCESS rfl).2.2
    (fun k => k % 2) { width := 512, height := 512 } 3

/-! ### Shader files -/

theorem read_file_pad_reaches (d : Nat) :
    ∀ (size increments : Nat), (32 - size % 32) % 32 = d → size + d < 4294967296 →
      read_file_pad size increments = { size := size + d, increments := increments + d } := by
  induction d with
  | zero =>
    intro size increments hd _
    have h0 : size % 32 = 0 := by omega
    rw [read_file_pad]
    simp [h0]
  | succ d ih =>
    intro size increments hd hfit
    have hne : size % 32 ≠ 0 := by omega
    have hnext : (size + 1) % 4294967296 = size + 1 := Nat.mod_eq_of_lt (by omega)
    rw [read_file_pad, if_pos hne, hnext, ih (size + 1) (increments + 1) (by omega) (by omega)]
    have e1 : size + 1 + d = size + (d + 1) := by omega
    have e2 : increments + 1 + d = increments + (d + 1) := by omega
    rw [e1, e2]

theorem read_file_of_size (s : Nat) (h : (s + 31) / 32 * 32 < 4294967296) :
    read_file (s : Int)
      = { size := s + (32 - s % 32) % 32, increments := (32 - s % 32) % 32 } := by
  have hs : to_uint32 (s : Int) = s := by
    rw [to_uint32_of_nonneg _ (Int.natCast_nonneg s) (by omega)]
    exact Int.toNat_natCast s
  unfold read_file
  rw [hs, read_file_pad_reaches ((32 - s % 32) % 32) s 0 rfl (by omega)]
  simp

/-- C15: for a file of true size `s` whose padded value is below 2^32, the size
`read_file` reports, which is the `codeSize` given to the shader module, is the
least multiple of 32 that is at least `s`; it is `s` itself when `s` is a multiple
of 32; and the padding loop stops after fewer than 32 increments. -/
theorem read_file_pads_to_multiple_of_32 (s : Nat) (h : (s + 31) / 32 * 32 < 4294967296) :
    32 ∣ (read_file (s : Int)).size
    ∧ s ≤ (read_file (s : Int)).size
    ∧ (∀ m, 32 ∣ m → s ≤ m → (read_file (s : Int)).size ≤ m)
    ∧ (read_file (s : Int)).size = (s + 31) / 32 * 32
    ∧ (s % 32 = 0 → (read_file (s : Int)).size = s)
    ∧ (read_file (s : Int)).increments < 32
    ∧ (shader_module_info (s : Int)).codeSize = (read_file (s : Int)).size := by
  have hsize : (read_file (s : Int)).size = s + (32 - s % 32) % 32 := by
    rw [read_file_of_size s h]
  have hinc : (read_file (s : Int)).increments = (32 - s % 32) % 32 := by
    rw [read_file_of_size s h]
  refine ⟨?_, ?_, ?_, ?_, ?_, ?_, rfl⟩
  · rw [hsize]
    exact Nat.dvd_of_mod_eq_zero (by omega)
  · rw [hsize]
    omega
  · intro m hm hle
    rw [hsize]
    obtain ⟨c, rfl⟩ := hm
    omega
  · rw [hsize]
    omega
  · intro h0
    rw [hsize]
    omega
  · rw [hinc]
    omega

/-- C15 at a file of 33 bytes, for which 64 is reported after 31 increments, and at
a file of 64 bytes, for which 64 is reported. -/
theorem read_file_pads_to_multiple_of_32_witness :
    (read_file (33 : Nat)).size = 64
    ∧ (read_file (33 : Nat)).increments < 32
    ∧ (read_file (64 : Nat)).size = 64 :=
  ⟨(read_file_pads_to_multiple_of_32 33 (by decide)).2.2.2.1,
   (read_file_pads_to_multiple_of_32 33 (by decide)).2.2.2.2.2.1,
   (read_file_pads_to_multiple_of_32 64 (by decide)).2.2.2.2.1 (by decide)⟩

/-! ### Extension support -/

theorem extension_listed_iff (name : String) :
    ∀ available : List String, extension_listed name available = true ↔ name ∈ available := by
  intro available
  induction available with
  | nil => simp [extension_listed]
  | cons a rest ih =>
    by_cases h : name = a
    · simp [extension_listed, h]
    · simp [extension_listed, h, ih]

theorem count_extension_matches_full (available : List String) :
    ∀ (required : List String) (found : Nat), found + required.length < 4294967296 →
      count_extension_matches available required found ≤ found + required.length
      ∧ (count_extension_matches available required found = found + required.length
          ↔ ∀ name ∈ required, name ∈ available) := by
  intro required
  induction required with
  | nil =>
    intro found _
    simp [count_extension_matches]
  | cons name rest ih =>
    intro found hfit
    simp only [List.length_cons] at hfit ⊢
    by_cases hname : name ∈ available
    · have hlisted : extension_listed name available = true :=
        (extension_listed_iff name available).mpr hname
      have hnext : (found + 1) % 4294967296 = found + 1 := Nat.mod_eq_of_lt (by omega)
      obtain ⟨hle, hiff⟩ := ih (found + 1) (by omega)
      simp only [count_extension_matches, hlisted, if_true, hnext]
      refine ⟨by omega, ?_⟩
      rw [show found + (rest.length + 1) = found + 1 + rest.length by omega, hiff]
      simp [hname]
    · have hlisted : extension_listed name available = false := by
        cases hl : extension_listed name available with
        | false => rfl
        | true => exact absurd ((extension_listed_iff name available).mp hl) hname
      obtain ⟨hle, _⟩ := ih found (by omega)
      simp only [count_extension_matches, hlisted]
      refine ⟨by simp; omega, ?_⟩
      constructor
      · intro heq
        simp at heq
        omega
      · intro hall
        exact absurd (hall name (List.mem_cons_self name rest)) hname

/-- C16: for an array of required extension names (whose count fits the 32-bit
loop index; duplicates or not) and any list of available names,
`check_extension_support` is true exactly when every required name occurs among
the available ones; with the program's `device_extensions` it is true exactly
when the swapchain extension is available. -/
theorem check_extension_support_iff_all_available (required available : List String)
    (h : required.length < 4294967296) :
    (check_extension_support_for required available = true
        ↔ ∀ name ∈ required, name ∈ available)
    ∧ (∀ device : VkPhysicalDevice,
        check_extension_support device = true
          ↔ VK_KHR_SWAPCHAIN_EXTENSION_NAME ∈ device.extensions) := by
  have hgeneral : ∀ req : List String, req.length < 4294967296 →
      (check_extension_support_for req available = true ↔ ∀ name ∈ req, name ∈ available) := by
    intro req hreq
    have hfull := (count_extension_matches_full available req 0 (by omega)).2
    simp only [Nat.zero_add] at hfull
    simp only [check_extension_support_for, beq_iff_eq]
    exact hfull
  refine ⟨hgeneral required h, ?_⟩
  intro device
  have hfull := (count_extension_matches_full device.extensions device_extensions 0
    (by decide)).2
  simp only [Nat.zero_add] at hfull
  simp only [check_extension_support, check_extension_support_for, beq_iff_eq]
  rw [hfull]
  simp [device_extensions]

/-- C16 with two required names and an available list that repeats one of them,
and with a required name that is not available. -/
theorem check_extension_support_iff_all_available_witness :
    check_extension_support_for ["VK_KHR_swapchain", "VK_KHR_maintenance1"]
        ["VK_KHR_maintenance1", "VK_KHR_swapchain", "VK_KHR_swapchain"] = true
    ∧ check_extension_support_for ["VK_KHR_swapchain", "VK_KHR_maintenance1"]
        ["VK_KHR_swapchain", "VK_KHR_swapchain"] = false
    ∧ check_extension_support discrete_device = true :=
  ⟨((check_extension_support_iff_all_available ["VK_KHR_swapchain", "VK_KHR_maintenance1"]
      ["VK_KHR_maintenance1", "VK_KHR_swapchain", "VK_KHR_swapchain"] (by decide)).1).mpr
      (by decide),
   by decide,
   ((check_extension_support_iff_all_available device_extensions discrete_device.extensions
      (by decide)).2 discrete_device).mpr (by decide)⟩

end VulkanTriangle
